import Mathlib

/-!
# goat3d: a shallow embedding of the C binding layer

Source files covered: `src/goat3d.c`, `src/goat3d_impl.h`, `src/goat3d_writexml.cc`.

Conventions of the embedding

* C strings (`char*`, NUL terminated) are lists of characters without the terminator.
* `float` values are kept abstract: a type `F` with the two constants the code writes,
  `0` and `1`. No floating point arithmetic is performed by the modelled functions.
* Dynamic arrays (`dynarr_*`, not part of the shown sources) are lists; an allocation
  that can fail takes a boolean saying whether it succeeds.
* A function that mutates an object through a pointer returns the new object.
* A returned pointer into a collection is the index of the element, `none` for null.
* The shown goat3d.c does not compile as it stands: it names a few variables and
  fields differently from their declarations (`attr` for the parameter `attrib`,
  `mesh->normal` for `mesh->normals`, `&vec` for `&v`, `intvec` for `i4`, `m` for
  `mesh`). Such names are read as the declared ones.
-/

namespace Goat3d

/-! ## Strings -/

/-- A C string without its terminating NUL. -/
abbrev CString := List Char

/-- The libc `tolower` in the "C" locale: only the letters A to Z change. -/
def tolower (c : Char) : Char :=
  if 'A' ≤ c ∧ c ≤ 'Z' then Char.ofNat (c.toNat + 32) else c

/-- The libc `strrchr`: offset of the last occurrence of `c` in `s`, `none` for null. -/
def strrchr : CString → Char → Option Nat
  | [], _ => none
  | x :: xs, c =>
    match strrchr xs c with
    | some i => some (i + 1)
    | none => if x = c then some 0 else none

/-- The libc `strcmp(a, b) == 0` test. -/
def strcmp_eq (a b : CString) : Bool := decide (a = b)

/-- Offset at which `clean_filename` starts copying (goat3d.c:1297-1304): one past the
last slash, or when there is no slash one past the last backslash, or 0. -/
def clean_filename_start (str : CString) : Nat :=
  match strrchr str '/' with
  | some i => i + 1
  | none =>
    match strrchr str '\\' with
    | some i => i + 1
    | none => 0

/-- The function `g3dimpl::clean_filename` (goat3d.c:1295-1314): the characters from
the start offset on, each passed through `tolower`. -/
def clean_filename (str : CString) : CString :=
  (str.drop (clean_filename_start str)).map tolower

/-! ## Vectors -/

/-- The type `cgm_vec2`. -/
structure Vec2 (F : Type) where
  x : F
  y : F
deriving DecidableEq, Repr

/-- The type `cgm_vec3`. -/
structure Vec3 (F : Type) where
  x : F
  y : F
  z : F
deriving DecidableEq, Repr

/-- The type `cgm_vec4`. -/
structure Vec4 (F : Type) where
  x : F
  y : F
  z : F
  w : F
deriving DecidableEq, Repr

/-- The type `int4` of skin matrix indices. -/
structure Int4 where
  x : Int
  y : Int
  z : Int
  w : Int
deriving DecidableEq, Repr

/-- The type `struct aabox`. -/
structure AABox (F : Type) where
  min : Vec3 F
  max : Vec3 F
deriving DecidableEq, Repr

/-! ## Materials -/

/-- Modelled from the spec: `struct material_attrib` is declared in a header that is not
shown. The spec gives it a name, a 4-float value and an optional texture map file name;
goat3d.c reads the fields `name`, `value` and `map`. -/
structure MaterialAttrib (F : Type) where
  name : CString
  value : Vec4 F
  map : Option CString
deriving DecidableEq, Repr

/-- Modelled from the spec: `struct goat3d_material` is declared in a header that is not
shown. The spec gives it a name and an ordered collection of attributes; goat3d.c reads
the fields `name` and `attrib`. -/
structure Material (F : Type) where
  name : CString
  attrib : List (MaterialAttrib F)
deriving DecidableEq, Repr

/-- Index of the first element of `l` satisfying `p`, scanning from index 0. -/
def find_first {α : Type} (p : α → Bool) : List α → Option Nat
  | [] => none
  | x :: xs => if p x then some 0 else (find_first p xs).map (· + 1)

/-- Apply `f` to the element at index `i`, leaving the list alone when there is none. -/
def modify_at {α : Type} (f : α → α) : List α → Nat → List α
  | [], _ => []
  | x :: xs, 0 => f x :: xs
  | x :: xs, i + 1 => x :: modify_at f xs i

/-- Modelled from the spec: `g3dimpl_mtl_findattr` is called by goat3d.c but defined in
a file that is not shown. The spec says attributes are an ordered collection keyed by
name where the first match wins; the result is the index of that attribute or null. -/
def g3dimpl_mtl_findattr {F : Type} (mtl : Material F) (name : CString) : Option Nat :=
  find_first (fun ma => strcmp_eq ma.name name) mtl.attrib

/-- Modelled from the spec: `g3dimpl_mtl_getattr` is called by goat3d.c but defined in
a file that is not shown. The spec says an attribute is created on first write: the
first match is returned when there is one, otherwise a new attribute of that name is
appended (value with the defaults 0, 0, 0 and alpha 1, no map) unless the allocation
fails, in which case the result is null and the material is unchanged. -/
def g3dimpl_mtl_getattr {F : Type} [Zero F] [One F] (alloc_ok : Bool)
    (mtl : Material F) (name : CString) : Material F × Option Nat :=
  match g3dimpl_mtl_findattr mtl name with
  | some i => (mtl, some i)
  | none =>
    if alloc_ok then
      ({ mtl with attrib := mtl.attrib ++ [{ name := name, value := ⟨0, 0, 0, 1⟩, map := none }] },
        some mtl.attrib.length)
    else (mtl, none)

/-- The function `goat3d_set_mtl_attrib4f` (goat3d.c:427-433). -/
def goat3d_set_mtl_attrib4f {F : Type} [Zero F] [One F] (alloc_ok : Bool)
    (mtl : Material F) (attrib : CString) (r g b a : F) : Int × Material F :=
  match g3dimpl_mtl_getattr alloc_ok mtl attrib with
  | (mtl1, none) => (-1, mtl1)
  | (mtl1, some i) =>
    (0, { mtl1 with attrib := modify_at (fun ma => { ma with value := ⟨r, g, b, a⟩ }) mtl1.attrib i })

/-- The function `goat3d_set_mtl_attrib1f` (goat3d.c:417-420). -/
def goat3d_set_mtl_attrib1f {F : Type} [Zero F] [One F] (alloc_ok : Bool)
    (mtl : Material F) (attrib : CString) (val : F) : Int × Material F :=
  goat3d_set_mtl_attrib4f alloc_ok mtl attrib val 0 0 1

/-- The function `goat3d_set_mtl_attrib3f` (goat3d.c:422-425). -/
def goat3d_set_mtl_attrib3f {F : Type} [Zero F] [One F] (alloc_ok : Bool)
    (mtl : Material F) (attrib : CString) (r g b : F) : Int × Material F :=
  goat3d_set_mtl_attrib4f alloc_ok mtl attrib r g b 1

/-- The function `goat3d_get_mtl_attrib` (goat3d.c:435-439): the four floats behind the
returned pointer, `none` for the null pointer. -/
def goat3d_get_mtl_attrib {F : Type} (mtl : Material F) (attrib : CString) : Option (Vec4 F) :=
  match g3dimpl_mtl_findattr mtl attrib with
  | some i => (mtl.attrib.get? i).map (fun ma => ma.value)
  | none => none

/-- The buffer handling of `goat3d_set_mtl_attrib_map` (goat3d.c:447-462) on the copy
`tmp` of `mapname`: the caller takes the result of `clean_filename` as a pointer into
that copy, `off` characters in, with the cleaned name written from there on; when the
pointer is not the start of the buffer, `memmove` copies `len - off + 1` bytes (the
terminator included) down to the start. The result is the buffer up to its NUL. -/
def attrib_map_buffer (mapname : CString) : CString :=
  let len := mapname.length
  let off := clean_filename_start mapname
  let buf := mapname.take off ++ clean_filename mapname
  if off ≠ 0 then (buf.drop off).take (len - off) else buf

/-- The function `goat3d_set_mtl_attrib_map` (goat3d.c:441-464). `tmp_ok` is the
success of the `malloc` of the copy, `alloc_ok` that of the attribute creation. -/
def goat3d_set_mtl_attrib_map {F : Type} [Zero F] [One F] (tmp_ok alloc_ok : Bool)
    (mtl : Material F) (attrib : CString) (mapname : CString) : Int × Material F :=
  if !tmp_ok then (-1, mtl)
  else
    match g3dimpl_mtl_getattr alloc_ok mtl attrib with
    | (mtl1, none) => (-1, mtl1)
    | (mtl1, some i) =>
      (0, { mtl1 with
              attrib := modify_at (fun ma => { ma with map := some (attrib_map_buffer mapname) })
                mtl1.attrib i })

/-- The function `goat3d_get_mtl_attrib_map` (goat3d.c:466-470) on an attribute that
exists: the stored map name. The outer `none` stands for the dereference of the null
pointer that `g3dimpl_mtl_findattr` returns on a miss. -/
def goat3d_get_mtl_attrib_map {F : Type} (mtl : Material F) (attrib : CString) :
    Option (Option CString) :=
  match g3dimpl_mtl_findattr mtl attrib with
  | some i => (mtl.attrib.get? i).map (fun ma => ma.map)
  | none => none

/-! ## Meshes -/

/-- Modelled from the spec: `struct face` is declared in a header that is not shown. The
spec says a face is an array of 3 vertex indices; goat3d.c writes `v[0]`, `v[1]`,
`v[2]`. -/
structure Face where
  v0 : Int
  v1 : Int
  v2 : Int
deriving DecidableEq, Repr, Inhabited

/-- Modelled from the spec: `enum goat3d_mesh_attrib` is declared in goat3d.h, which is
not shown. The spec lists the seven attribute kinds and goat3d.c names the seven
enumerators; a C enum parameter can carry any integer, the values outside the seven
enumerators are `other`. -/
inductive goat3d_mesh_attrib where
  | GOAT3D_MESH_ATTR_VERTEX
  | GOAT3D_MESH_ATTR_NORMAL
  | GOAT3D_MESH_ATTR_TANGENT
  | GOAT3D_MESH_ATTR_TEXCOORD
  | GOAT3D_MESH_ATTR_SKIN_WEIGHT
  | GOAT3D_MESH_ATTR_SKIN_MATRIX
  | GOAT3D_MESH_ATTR_COLOR
  | other (n : Int)
deriving DecidableEq, Repr

/-- Modelled from the spec: `enum goat3d_im_primitive` is declared in goat3d.h, which is
not shown. The spec has triangle and quad input and goat3d.c names the two enumerators;
any other integer is `other`. -/
inductive goat3d_im_primitive where
  | GOAT3D_TRIANGLES
  | GOAT3D_QUADS
  | other (n : Int)
deriving DecidableEq, Repr

/-- Modelled from the spec: `struct goat3d_mesh` is declared in a header that is not
shown. The spec gives a mesh a name, an optional material reference, the seven
parallel attribute arrays with their element types and the face array; goat3d.c uses
the fields under these names. -/
structure Mesh (F : Type) where
  name : CString
  material : Option Nat
  vertices : List (Vec3 F)
  normals : List (Vec3 F)
  tangents : List (Vec3 F)
  texcoords : List (Vec2 F)
  skin_weights : List (Vec4 F)
  skin_matrices : List Int4
  colors : List (Vec4 F)
  faces : List Face
deriving DecidableEq, Repr

/-- A freshly created mesh (`goat3d_create_mesh`): every array is empty. -/
def Mesh.fresh (F : Type) : Mesh F :=
  { name := [], material := none, vertices := [], normals := [], tangents := [],
    texcoords := [], skin_weights := [], skin_matrices := [], colors := [], faces := [] }

/-- The element type of the array that holds an attribute kind. -/
def ElemTy (F : Type) : goat3d_mesh_attrib → Type
  | .GOAT3D_MESH_ATTR_VERTEX => Vec3 F
  | .GOAT3D_MESH_ATTR_NORMAL => Vec3 F
  | .GOAT3D_MESH_ATTR_TANGENT => Vec3 F
  | .GOAT3D_MESH_ATTR_TEXCOORD => Vec2 F
  | .GOAT3D_MESH_ATTR_SKIN_WEIGHT => Vec4 F
  | .GOAT3D_MESH_ATTR_SKIN_MATRIX => Int4
  | .GOAT3D_MESH_ATTR_COLOR => Vec4 F
  | .other _ => Unit

/-- The `memcpy(arr, p, n * sizeof *arr)` of `SET_VERTEX_DATA` after a successful
`dynarr_resize(arr, n)`: the array is exactly the first `n` elements behind `p`. -/
def memcpy_elems {α : Type} (p : Nat → α) (n : Nat) : List α :=
  (List.range n).map p

/-- The macro `SET_VERTEX_DATA(arr, p, n)` (goat3d.c:562-571): `none` when the resize
fails (the enclosing function then returns -1), the new array otherwise. A negative
`n` is outside the model and counts as 0 elements. -/
def SET_VERTEX_DATA {α : Type} (resize_ok : Bool) (p : Nat → α) (n : Int) : Option (List α) :=
  if resize_ok then some (memcpy_elems p n.toNat) else none

/-- The function `goat3d_set_mesh_attribs` (goat3d.c:573-608). `data` is the caller's
buffer read as elements of the attribute's array type. The COLOR case has no `break`
and runs into `default`. -/
def goat3d_set_mesh_attribs {F : Type} (resize_ok : Bool) (mesh : Mesh F)
    (attrib : goat3d_mesh_attrib) (data : Nat → ElemTy F attrib) (vnum : Int) : Int × Mesh F :=
  match attrib, data with
  | .GOAT3D_MESH_ATTR_VERTEX, data =>
    match SET_VERTEX_DATA resize_ok data vnum with
    | none => (-1, mesh)
    | some arr => (0, { mesh with vertices := arr })
  | attrib, data =>
    if vnum ≠ (mesh.vertices.length : Int) then (-1, mesh)
    else
      match attrib, data with
      | .GOAT3D_MESH_ATTR_NORMAL, data =>
        match SET_VERTEX_DATA resize_ok data vnum with
        | none => (-1, mesh)
        | some arr => (0, { mesh with normals := arr })
      | .GOAT3D_MESH_ATTR_TANGENT, data =>
        match SET_VERTEX_DATA resize_ok data vnum with
        | none => (-1, mesh)
        | some arr => (0, { mesh with tangents := arr })
      | .GOAT3D_MESH_ATTR_TEXCOORD, data =>
        match SET_VERTEX_DATA resize_ok data vnum with
        | none => (-1, mesh)
        | some arr => (0, { mesh with texcoords := arr })
      | .GOAT3D_MESH_ATTR_SKIN_WEIGHT, data =>
        match SET_VERTEX_DATA resize_ok data vnum with
        | none => (-1, mesh)
        | some arr => (0, { mesh with skin_weights := arr })
      | .GOAT3D_MESH_ATTR_SKIN_MATRIX, data =>
        match SET_VERTEX_DATA resize_ok data vnum with
        | none => (-1, mesh)
        | some arr => (0, { mesh with skin_matrices := arr })
      | .GOAT3D_MESH_ATTR_COLOR, data =>
        match SET_VERTEX_DATA resize_ok data vnum with
        | none => (-1, mesh)
        | some arr => (-1, { mesh with colors := arr })
      | _, _ => (-1, mesh)

/-- Modelled from the spec: `dynarr_push` is defined in a file that is not shown; the
spec treats dynamic arrays as a generic resizable contiguous container. The element is
appended, or the result is `none` (null) and the array unchanged when the allocation
fails. -/
def dynarr_push {α : Type} (push_ok : Bool) (arr : List α) (x : α) : Option (List α) :=
  if push_ok then some (arr ++ [x]) else none

/-- The function `goat3d_add_mesh_attrib4f` (goat3d.c:628-703). `ftoi` is the C
conversion from `float` to `int` of the skin matrix case. The COLOR case has no
`break` and runs into `default`. -/
def goat3d_add_mesh_attrib4f {F : Type} (ftoi : F → Int) (push_ok : Bool)
    (mesh : Mesh F) (attrib : goat3d_mesh_attrib) (x y z w : F) : Int × Mesh F :=
  match attrib with
  | .GOAT3D_MESH_ATTR_VERTEX =>
    match dynarr_push push_ok mesh.vertices ⟨x, y, z⟩ with
    | none => (-1, mesh)
    | some tmp => (0, { mesh with vertices := tmp })
  | .GOAT3D_MESH_ATTR_NORMAL =>
    match dynarr_push push_ok mesh.normals ⟨x, y, z⟩ with
    | none => (-1, mesh)
    | some tmp => (0, { mesh with normals := tmp })
  | .GOAT3D_MESH_ATTR_TANGENT =>
    match dynarr_push push_ok mesh.tangents ⟨x, y, z⟩ with
    | none => (-1, mesh)
    | some tmp => (0, { mesh with tangents := tmp })
  | .GOAT3D_MESH_ATTR_TEXCOORD =>
    match dynarr_push push_ok mesh.texcoords ⟨x, y⟩ with
    | none => (-1, mesh)
    | some tmp => (0, { mesh with texcoords := tmp })
  | .GOAT3D_MESH_ATTR_SKIN_WEIGHT =>
    match dynarr_push push_ok mesh.skin_weights ⟨x, y, z, w⟩ with
    | none => (-1, mesh)
    | some tmp => (0, { mesh with skin_weights := tmp })
  | .GOAT3D_MESH_ATTR_SKIN_MATRIX =>
    match dynarr_push push_ok mesh.skin_matrices ⟨ftoi x, ftoi y, ftoi z, ftoi w⟩ with
    | none => (-1, mesh)
    | some tmp => (0, { mesh with skin_matrices := tmp })
  | .GOAT3D_MESH_ATTR_COLOR =>
    match dynarr_push push_ok mesh.colors ⟨x, y, z, w⟩ with
    | none => (-1, mesh)
    | some tmp => (-1, { mesh with colors := tmp })
  | .other _ => (-1, mesh)

/-- The function `goat3d_add_mesh_attrib1f` (goat3d.c:610-614). -/
def goat3d_add_mesh_attrib1f {F : Type} [Zero F] [One F] (ftoi : F → Int) (push_ok : Bool)
    (mesh : Mesh F) (attrib : goat3d_mesh_attrib) (val : F) : Int × Mesh F :=
  goat3d_add_mesh_attrib4f ftoi push_ok mesh attrib val 0 0 1

/-- The function `goat3d_add_mesh_attrib2f` (goat3d.c:616-620). -/
def goat3d_add_mesh_attrib2f {F : Type} [Zero F] [One F] (ftoi : F → Int) (push_ok : Bool)
    (mesh : Mesh F) (attrib : goat3d_mesh_attrib) (x y : F) : Int × Mesh F :=
  goat3d_add_mesh_attrib4f ftoi push_ok mesh attrib x y 0 1

/-- The function `goat3d_add_mesh_attrib3f` (goat3d.c:622-626). -/
def goat3d_add_mesh_attrib3f {F : Type} [Zero F] [One F] (ftoi : F → Int) (push_ok : Bool)
    (mesh : Mesh F) (attrib : goat3d_mesh_attrib) (x y z : F) : Int × Mesh F :=
  goat3d_add_mesh_attrib4f ftoi push_ok mesh attrib x y z 1

/-! ## Immediate mode -/

/-- Modelled from the spec: `dynarr_resize` is defined in a file that is not shown; the
spec treats dynamic arrays as a generic resizable contiguous container. The result has
`n` elements, the old ones kept as far as they fit and the new ones unspecified (here
the default element), or it is `none` (null) when the allocation fails. -/
def dynarr_resize {α : Type} [Inhabited α] (resize_ok : Bool) (arr : List α) (n : Nat) :
    Option (List α) :=
  if resize_ok then some (arr.take n ++ List.replicate (n - arr.length) default) else none

/-- The loop of the `GOAT3D_TRIANGLES` case of `goat3d_end` (goat3d.c:814-819), with
`count` iterations left, loop counter `i` and running index `vidx`. -/
def end_triangles_loop : Nat → Nat → Int → List Face → List Face
  | 0, _, _, faces => faces
  | count + 1, i, vidx, faces =>
    end_triangles_loop count (i + 1) (vidx + 3) (faces.set i ⟨vidx, vidx + 1, vidx + 2⟩)

/-- The loop of the `GOAT3D_QUADS` case of `goat3d_end` (goat3d.c:831-842), with
`count` iterations left, loop counter `i` and running index `vidx`. -/
def end_quads_loop : Nat → Nat → Int → List Face → List Face
  | 0, _, _, faces => faces
  | count + 1, i, vidx, faces =>
    end_quads_loop count (i + 1) (vidx + 4)
      ((faces.set (i * 2) ⟨vidx, vidx + 1, vidx + 2⟩).set (i * 2 + 1) ⟨vidx, vidx + 2, vidx + 3⟩)

/-- The body of `goat3d_end` (goat3d.c:800-849) on the mesh `im_mesh` points to. -/
def end_mesh {F : Type} (im_prim : goat3d_im_primitive) (resize_ok : Bool) (m : Mesh F) :
    Mesh F :=
  match im_prim with
  | .GOAT3D_TRIANGLES =>
    let num_faces := m.vertices.length / 3
    match dynarr_resize resize_ok m.faces num_faces with
    | none => m
    | some tmp => { m with faces := end_triangles_loop num_faces 0 0 tmp }
  | .GOAT3D_QUADS =>
    let num_quads := m.vertices.length / 4
    match dynarr_resize resize_ok m.faces (num_quads * 2) with
    | none => m
    | some tmp => { m with faces := end_quads_loop num_quads 0 0 tmp }
  | .other _ => m

/-- The success of the seven `dynarr_push` calls one `goat3d_vertex3f` can make. -/
structure PushOk where
  vertex : Bool
  normal : Bool
  tangent : Bool
  texcoord : Bool
  skin_weight : Bool
  skin_matrix : Bool
  color : Bool
deriving DecidableEq, Repr

/-- Every push succeeds. -/
def PushOk.all : PushOk := ⟨true, true, true, true, true, true, true⟩

/-- One `if(im_use[k]) { if((tmp = dynarr_push(arr, &cur))) arr = tmp; }` block of
`goat3d_vertex3f`. -/
def push_if_used {α : Type} (use push_ok : Bool) (arr : List α) (cur : α) : List α :=
  if use then
    match dynarr_push push_ok arr cur with
    | some tmp => tmp
    | none => arr
  else arr

/-- The immediate mode state (the file scope statics of goat3d.c:774-780) together with
the one mesh of the model. `im_mesh` says whether the static pointer points to that
mesh (`true`) or is null (`false`); `im_use` is the array of per attribute flags. -/
structure ImWorld (F : Type) where
  mesh : Mesh F
  im_prim : goat3d_im_primitive
  im_mesh : Bool
  im_norm : Vec3 F
  im_tang : Vec3 F
  im_texcoord : Vec2 F
  im_skinw : Vec4 F
  im_color : Vec4 F
  im_skinmat : Int4
  im_use : goat3d_mesh_attrib → Bool

/-- The state at program start with a freshly created mesh: the statics are zero apart
from `im_color`, which is initialised to (1, 1, 1, 1). The zero of `im_prim` is taken
to be the first enumerator; it is overwritten by `goat3d_begin` before any use. -/
def ImWorld.fresh (F : Type) [Zero F] [One F] : ImWorld F :=
  { mesh := Mesh.fresh F, im_prim := .GOAT3D_TRIANGLES, im_mesh := false,
    im_norm := ⟨0, 0, 0⟩, im_tang := ⟨0, 0, 0⟩, im_texcoord := ⟨0, 0⟩,
    im_skinw := ⟨0, 0, 0, 0⟩, im_color := ⟨1, 1, 1, 1⟩, im_skinmat := ⟨0, 0, 0, 0⟩,
    im_use := fun _ => false }

/-- The function `goat3d_begin` (goat3d.c:783-798). -/
def goat3d_begin {F : Type} (w : ImWorld F) (prim : goat3d_im_primitive) : ImWorld F :=
  { w with
    mesh := { w.mesh with vertices := [], normals := [], tangents := [], texcoords := [],
                          skin_weights := [], skin_matrices := [], colors := [], faces := [] }
    im_mesh := true
    im_use := fun _ => false
    im_prim := prim }

/-- The function `goat3d_end` (goat3d.c:800-849); `none` is the dereference of a null
`im_mesh` in the two cases that read it. -/
def goat3d_end {F : Type} (resize_ok : Bool) (w : ImWorld F) : Option (ImWorld F) :=
  match w.im_prim with
  | .other _ => some w
  | prim => if w.im_mesh then some { w with mesh := end_mesh prim resize_ok w.mesh } else none

/-- The function `goat3d_vertex3f` (goat3d.c:851-892); `none` is the dereference of a
null `im_mesh`. -/
def goat3d_vertex3f {F : Type} (ok : PushOk) (w : ImWorld F) (x y z : F) :
    Option (ImWorld F) :=
  if w.im_mesh then
    match dynarr_push ok.vertex w.mesh.vertices ⟨x, y, z⟩ with
    | none => some w
    | some tmp =>
      some { w with
        mesh := { w.mesh with
          vertices := tmp
          normals := push_if_used (w.im_use .GOAT3D_MESH_ATTR_NORMAL) ok.normal
            w.mesh.normals w.im_norm
          tangents := push_if_used (w.im_use .GOAT3D_MESH_ATTR_TANGENT) ok.tangent
            w.mesh.tangents w.im_tang
          texcoords := push_if_used (w.im_use .GOAT3D_MESH_ATTR_TEXCOORD) ok.texcoord
            w.mesh.texcoords w.im_texcoord
          skin_weights := push_if_used (w.im_use .GOAT3D_MESH_ATTR_SKIN_WEIGHT) ok.skin_weight
            w.mesh.skin_weights w.im_skinw
          skin_matrices := push_if_used (w.im_use .GOAT3D_MESH_ATTR_SKIN_MATRIX) ok.skin_matrix
            w.mesh.skin_matrices w.im_skinmat
          colors := push_if_used (w.im_use .GOAT3D_MESH_ATTR_COLOR) ok.color
            w.mesh.colors w.im_color } }
  else none

/-- The assignment `im_use[k] = 1`. -/
def set_use (im_use : goat3d_mesh_attrib → Bool) (k : goat3d_mesh_attrib) :
    goat3d_mesh_attrib → Bool :=
  fun j => if j = k then true else im_use j

/-- The function `goat3d_normal3f` (goat3d.c:894-898). -/
def goat3d_normal3f {F : Type} (w : ImWorld F) (x y z : F) : ImWorld F :=
  { w with im_norm := ⟨x, y, z⟩, im_use := set_use w.im_use .GOAT3D_MESH_ATTR_NORMAL }

/-- The function `goat3d_tangent3f` (goat3d.c:900-904). -/
def goat3d_tangent3f {F : Type} (w : ImWorld F) (x y z : F) : ImWorld F :=
  { w with im_tang := ⟨x, y, z⟩, im_use := set_use w.im_use .GOAT3D_MESH_ATTR_TANGENT }

/-- The function `goat3d_texcoord2f` (goat3d.c:906-911). -/
def goat3d_texcoord2f {F : Type} (w : ImWorld F) (x y : F) : ImWorld F :=
  { w with im_texcoord := ⟨x, y⟩, im_use := set_use w.im_use .GOAT3D_MESH_ATTR_TEXCOORD }

/-- The function `goat3d_skin_weight4f` (goat3d.c:913-917). -/
def goat3d_skin_weight4f {F : Type} (w : ImWorld F) (x y z ww : F) : ImWorld F :=
  { w with im_skinw := ⟨x, y, z, ww⟩, im_use := set_use w.im_use .GOAT3D_MESH_ATTR_SKIN_WEIGHT }

/-- The function `goat3d_skin_matrix4i` (goat3d.c:919-926). -/
def goat3d_skin_matrix4i {F : Type} (w : ImWorld F) (x y z ww : Int) : ImWorld F :=
  { w with im_skinmat := ⟨x, y, z, ww⟩, im_use := set_use w.im_use .GOAT3D_MESH_ATTR_SKIN_MATRIX }

/-- The function `goat3d_color4f` (goat3d.c:933-937). -/
def goat3d_color4f {F : Type} (w : ImWorld F) (x y z ww : F) : ImWorld F :=
  { w with im_color := ⟨x, y, z, ww⟩, im_use := set_use w.im_use .GOAT3D_MESH_ATTR_COLOR }

/-! ## Mesh operation traces -/

/-- One call of the mesh mutating interface on the mesh of the model, with the outcome
of the allocations it makes. -/
inductive MeshOp (F : Type) where
  | set_mesh_attribs (resize_ok : Bool) (attrib : goat3d_mesh_attrib)
      (data : Nat → ElemTy F attrib) (vnum : Int)
  | add_mesh_attrib1f (push_ok : Bool) (attrib : goat3d_mesh_attrib) (val : F)
  | add_mesh_attrib2f (push_ok : Bool) (attrib : goat3d_mesh_attrib) (x y : F)
  | add_mesh_attrib3f (push_ok : Bool) (attrib : goat3d_mesh_attrib) (x y z : F)
  | add_mesh_attrib4f (push_ok : Bool) (attrib : goat3d_mesh_attrib) (x y z w : F)
  | begin_ (prim : goat3d_im_primitive)
  | vertex3f (ok : PushOk) (x y z : F)
  | normal3f (x y z : F)
  | tangent3f (x y z : F)
  | texcoord2f (x y : F)
  | skin_weight4f (x y z w : F)
  | skin_matrix4i (x y z w : Int)
  | color4f (x y z w : F)
  | end_ (resize_ok : Bool)

/-- Run one call; `none` when the call dereferences a null `im_mesh`. -/
def MeshOp.step {F : Type} [Zero F] [One F] (ftoi : F → Int) (w : ImWorld F) :
    MeshOp F → Option (ImWorld F)
  | .set_mesh_attribs ok attrib data vnum =>
    some { w with mesh := (goat3d_set_mesh_attribs ok w.mesh attrib data vnum).2 }
  | .add_mesh_attrib1f ok attrib val =>
    some { w with mesh := (goat3d_add_mesh_attrib1f ftoi ok w.mesh attrib val).2 }
  | .add_mesh_attrib2f ok attrib x y =>
    some { w with mesh := (goat3d_add_mesh_attrib2f ftoi ok w.mesh attrib x y).2 }
  | .add_mesh_attrib3f ok attrib x y z =>
    some { w with mesh := (goat3d_add_mesh_attrib3f ftoi ok w.mesh attrib x y z).2 }
  | .add_mesh_attrib4f ok attrib x y z ww =>
    some { w with mesh := (goat3d_add_mesh_attrib4f ftoi ok w.mesh attrib x y z ww).2 }
  | .begin_ prim => some (goat3d_begin w prim)
  | .vertex3f ok x y z => goat3d_vertex3f ok w x y z
  | .normal3f x y z => some (goat3d_normal3f w x y z)
  | .tangent3f x y z => some (goat3d_tangent3f w x y z)
  | .texcoord2f x y => some (goat3d_texcoord2f w x y)
  | .skin_weight4f x y z ww => some (goat3d_skin_weight4f w x y z ww)
  | .skin_matrix4i x y z ww => some (goat3d_skin_matrix4i w x y z ww)
  | .color4f x y z ww => some (goat3d_color4f w x y z ww)
  | .end_ ok => goat3d_end ok w

/-- Run a sequence of calls from left to right. -/
def MeshOp.run {F : Type} [Zero F] [One F] (ftoi : F → Int) :
    ImWorld F → List (MeshOp F) → Option (ImWorld F)
  | w, [] => some w
  | w, op :: ops =>
    match MeshOp.step ftoi w op with
    | none => none
    | some w1 => MeshOp.run ftoi w1 ops

/-- The mesh length invariant of the spec: every non-vertex attribute array is empty or
as long as the vertex array. -/
def MeshLenInv {F : Type} (m : Mesh F) : Prop :=
  (m.normals = [] ∨ m.normals.length = m.vertices.length) ∧
  (m.tangents = [] ∨ m.tangents.length = m.vertices.length) ∧
  (m.texcoords = [] ∨ m.texcoords.length = m.vertices.length) ∧
  (m.skin_weights = [] ∨ m.skin_weights.length = m.vertices.length) ∧
  (m.skin_matrices = [] ∨ m.skin_matrices.length = m.vertices.length) ∧
  (m.colors = [] ∨ m.colors.length = m.vertices.length)

/-! ## Scene -/

/-- Modelled from the spec: `struct goat3d_light` is declared in a header that is not
shown; the spec leaves lights opaque apart from their name. -/
structure Light where
  name : CString
deriving DecidableEq, Repr

/-- Modelled from the spec: `struct goat3d_camera` is declared in a header that is not
shown; the spec leaves cameras opaque apart from their name. -/
structure Camera where
  name : CString
deriving DecidableEq, Repr

/-- Modelled from the spec: `struct goat3d_node` is declared in a header that is not
shown. The spec gives a node a name and at most one parent; goat3d.c reads the `parent`
pointer (`none` for null). -/
structure Node where
  name : CString
  parent : Option Nat
deriving DecidableEq, Repr

/-- Modelled from the spec: `struct goat3d` is declared in a header that is not shown.
The spec gives a scene a name, an ambient colour and the five ordered collections;
goat3d.c also uses `flags`, `search_path`, `bbox` and `bbox_valid`. `name` and
`search_path` are `none` when the pointer is null; `flags` is the option word, taken as
its 32-bit pattern. -/
structure Scene (F : Type) where
  name : Option CString
  ambient : Vec3 F
  materials : List (Material F)
  meshes : List (Mesh F)
  lights : List Light
  cameras : List Camera
  nodes : List Node
  flags : Nat
  search_path : Option CString
  bbox : AABox F
  bbox_valid : Bool

/-- The function `goat3d_set_name` (goat3d.c:283-293): the old name is freed before the
`malloc`, whose success is `malloc_ok`. -/
def goat3d_set_name {F : Type} (malloc_ok : Bool) (g : Scene F) (name : CString) :
    Int × Scene F :=
  if malloc_ok then (0, { g with name := some name }) else (-1, { g with name := none })

/-- The function `goat3d_clear` (goat3d.c:89-107): the materials are released and their
array cleared, then the name is reset; the body stops at `TODO cont. clear`. -/
def goat3d_clear {F : Type} (malloc_ok : Bool) (g : Scene F) : Scene F :=
  (goat3d_set_name malloc_ok { g with materials := [] } "unnamed".toList).2

/-- The function `goat3d_get_mtl_count` (goat3d.c:354-357). -/
def goat3d_get_mtl_count {F : Type} (g : Scene F) : Int := g.materials.length

/-- The function `goat3d_get_mesh_count` (goat3d.c:483-486). -/
def goat3d_get_mesh_count {F : Type} (g : Scene F) : Int := g.meshes.length

/-- The number of nodes, `dynarr_size(g->nodes)` as `goat3d_get_bounds` reads it. -/
def goat3d_get_node_count {F : Type} (g : Scene F) : Int := g.nodes.length

/-- The loop of `goat3d_get_mtl_by_name` (goat3d.c:366-371): the index at which the
function returns, `none` when the loop runs to the end. -/
def mtl_by_name_index {F : Type} (g : Scene F) (name : CString) : Option Nat :=
  find_first (fun (m : Material F) => strcmp_eq m.name name) g.materials

/-- The function `goat3d_get_mtl_by_name` (goat3d.c:364-373); `none` is the null
pointer. -/
def goat3d_get_mtl_by_name {F : Type} (g : Scene F) (name : CString) : Option (Material F) :=
  match mtl_by_name_index g name with
  | some i => g.materials.get? i
  | none => none

/-- The loop of `goat3d_get_mesh_by_name` (goat3d.c:495-500): the index at which the
function returns, `none` when the loop runs to the end. -/
def mesh_by_name_index {F : Type} (g : Scene F) (name : CString) : Option Nat :=
  find_first (fun (m : Mesh F) => strcmp_eq m.name name) g.meshes

/-- The function `goat3d_get_mesh_by_name` (goat3d.c:493-502); `none` is the null
pointer. -/
def goat3d_get_mesh_by_name {F : Type} (g : Scene F) (name : CString) : Option (Mesh F) :=
  match mesh_by_name_index g name with
  | some i => g.meshes.get? i
  | none => none

/-! ## Loading -/

/-- A scene loader (`g3dimpl_scnload_bin`, `g3dimpl_scnload_text`, `g3dimpl_anmload_bin`,
`g3dimpl_anmload_text`; none of them is part of the shown sources): it reads the stream
`S`, changes the scene and returns an `int`. -/
abbrev Loader (F S : Type) := Scene F → S → Int × Scene F × S

/-- The function `goat3d_load_io` (goat3d.c:189-197): the text loader runs when the
binary loader returns non-zero, and -1 is returned when the text loader returns zero. -/
def goat3d_load_io {F S : Type} (g3dimpl_scnload_bin g3dimpl_scnload_text : Loader F S)
    (g : Scene F) (s : S) : Int × Scene F × S :=
  match g3dimpl_scnload_bin g s with
  | (r1, g1, s1) =>
    if r1 ≠ 0 then
      match g3dimpl_scnload_text g1 s1 with
      | (r2, g2, s2) => if r2 = 0 then (-1, g2, s2) else (0, g2, s2)
    else (0, g1, s1)

/-- The function `goat3d_load_anim_io` (goat3d.c:261-269). -/
def goat3d_load_anim_io {F S : Type} (g3dimpl_anmload_bin g3dimpl_anmload_text : Loader F S)
    (g : Scene F) (s : S) : Int × Scene F × S :=
  match g3dimpl_anmload_bin g s with
  | (r1, g1, s1) =>
    if r1 = -1 then
      match g3dimpl_anmload_text g1 s1 with
      | (r2, g2, s2) => if r2 = -1 then (-1, g2, s2) else (0, g2, s2)
    else (0, g1, s1)

/-! ## A calling discipline for the mesh interface -/

/-- Whether the six non-vertex attribute arrays of a mesh are all empty. -/
def Mesh.others_empty {F : Type} (m : Mesh F) : Bool :=
  m.normals.isEmpty && m.tangents.isEmpty && m.texcoords.isEmpty &&
  m.skin_weights.isEmpty && m.skin_matrices.isEmpty && m.colors.isEmpty

/-- Whether a call keeps to the discipline, given whether it comes between a
`goat3d_begin` and the next `goat3d_end` (`sess`) and the state it is made in:
* `goat3d_set_mesh_attribs` is called outside begin/end, and for the vertex kind only
  with the current vertex count or while the other attribute arrays are empty;
* `goat3d_add_mesh_attrib1f/2f/3f/4f` are not called;
* `goat3d_vertex3f` is called between begin and end, and all its pushes succeed;
* between begin and end an attribute is latched for the first time only while the
  vertex array is empty. -/
def MeshOp.allowed {F : Type} (sess : Bool) (w : ImWorld F) : MeshOp F → Bool
  | .set_mesh_attribs _ attrib _ vnum =>
    !sess && (decide (attrib ≠ .GOAT3D_MESH_ATTR_VERTEX) ||
      decide (vnum = (w.mesh.vertices.length : Int)) || w.mesh.others_empty)
  | .add_mesh_attrib1f _ _ _ => false
  | .add_mesh_attrib2f _ _ _ _ => false
  | .add_mesh_attrib3f _ _ _ _ _ => false
  | .add_mesh_attrib4f _ _ _ _ _ _ => false
  | .begin_ _ => true
  | .vertex3f ok _ _ _ => sess && decide (ok = PushOk.all)
  | .normal3f _ _ _ =>
    !sess || w.im_use .GOAT3D_MESH_ATTR_NORMAL || w.mesh.vertices.isEmpty
  | .tangent3f _ _ _ =>
    !sess || w.im_use .GOAT3D_MESH_ATTR_TANGENT || w.mesh.vertices.isEmpty
  | .texcoord2f _ _ =>
    !sess || w.im_use .GOAT3D_MESH_ATTR_TEXCOORD || w.mesh.vertices.isEmpty
  | .skin_weight4f _ _ _ _ =>
    !sess || w.im_use .GOAT3D_MESH_ATTR_SKIN_WEIGHT || w.mesh.vertices.isEmpty
  | .skin_matrix4i _ _ _ _ =>
    !sess || w.im_use .GOAT3D_MESH_ATTR_SKIN_MATRIX || w.mesh.vertices.isEmpty
  | .color4f _ _ _ _ =>
    !sess || w.im_use .GOAT3D_MESH_ATTR_COLOR || w.mesh.vertices.isEmpty
  | .end_ _ => true

/-- Whether the next call comes between a `goat3d_begin` and its `goat3d_end`. -/
def MeshOp.next_session {F : Type} (sess : Bool) : MeshOp F → Bool
  | .begin_ _ => true
  | .end_ _ => false
  | _ => sess

/-- Whether every call of a sequence keeps to the discipline, each judged in the state
the calls before it produce. -/
def MeshOp.disciplined {F : Type} [Zero F] [One F] (ftoi : F → Int) :
    Bool → ImWorld F → List (MeshOp F) → Bool
  | _, _, [] => true
  | sess, w, op :: ops =>
    MeshOp.allowed sess w op &&
      match MeshOp.step ftoi w op with
      | none => true
      | some w1 => MeshOp.disciplined ftoi (MeshOp.next_session sess op) w1 ops

/-- The invariant between `goat3d_begin` and `goat3d_end`: the array of a latched
attribute is as long as the vertex array, the array of any other attribute is empty. -/
def ImInv {F : Type} (w : ImWorld F) : Prop :=
  (if w.im_use .GOAT3D_MESH_ATTR_NORMAL then w.mesh.normals.length = w.mesh.vertices.length
    else w.mesh.normals = []) ∧
  (if w.im_use .GOAT3D_MESH_ATTR_TANGENT then w.mesh.tangents.length = w.mesh.vertices.length
    else w.mesh.tangents = []) ∧
  (if w.im_use .GOAT3D_MESH_ATTR_TEXCOORD then w.mesh.texcoords.length = w.mesh.vertices.length
    else w.mesh.texcoords = []) ∧
  (if w.im_use .GOAT3D_MESH_ATTR_SKIN_WEIGHT then
      w.mesh.skin_weights.length = w.mesh.vertices.length
    else w.mesh.skin_weights = []) ∧
  (if w.im_use .GOAT3D_MESH_ATTR_SKIN_MATRIX then
      w.mesh.skin_matrices.length = w.mesh.vertices.length
    else w.mesh.skin_matrices = []) ∧
  (if w.im_use .GOAT3D_MESH_ATTR_COLOR then w.mesh.colors.length = w.mesh.vertices.length
    else w.mesh.colors = [])

/-! ## Options -/

/-- The function `goat3d_setopt` (goat3d.c:109-116) on the 32-bit flags word; `opt` is
the enumerator converted to `int`, and `~(1 << opt)` is the 32-bit complement. -/
def goat3d_setopt {F : Type} (g : Scene F) (opt : Nat) (val : Int) : Scene F :=
  if val ≠ 0 then { g with flags := g.flags ||| (1 <<< opt) }
  else { g with flags := g.flags &&& ((2 ^ 32 - 1) ^^^ (1 <<< opt)) }

/-- The function `goat3d_getopt` (goat3d.c:118-121). -/
def goat3d_getopt {F : Type} (g : Scene F) (opt : Nat) : Int :=
  ((g.flags >>> opt) &&& 1 : Nat)

/-! ## Scene bounds and nodes -/

/-- The loop of `goat3d_get_bounds` (goat3d.c:324-330) over the nodes still to visit:
a node with a parent is skipped, the bounds of any other node are united into the box.
`g3dimpl_node_bounds` and `g3dimpl_aabox_union` are not part of the shown sources and
are parameters. -/
def get_bounds_loop {F : Type} (g3dimpl_node_bounds : Node → AABox F)
    (g3dimpl_aabox_union : AABox F → AABox F → AABox F) : List Node → AABox F → AABox F
  | [], bbox => bbox
  | node :: rest, bbox =>
    if node.parent.isSome then
      get_bounds_loop g3dimpl_node_bounds g3dimpl_aabox_union rest bbox
    else
      get_bounds_loop g3dimpl_node_bounds g3dimpl_aabox_union rest
        (g3dimpl_aabox_union bbox (g3dimpl_node_bounds node))

/-- The function `goat3d_get_bounds` (goat3d.c:315-341): the returned `int`, the values
written to `bmin` and `bmax`, and the scene with its cache. `g3dimpl_aabox_init` is the
box that `g3dimpl_aabox_init(&g->bbox)` leaves; it is not part of the shown sources and
is a parameter like the other two box operations. -/
def goat3d_get_bounds {F : Type} (g3dimpl_aabox_init : AABox F)
    (g3dimpl_node_bounds : Node → AABox F)
    (g3dimpl_aabox_union : AABox F → AABox F → AABox F) (g : Scene F) :
    Int × Vec3 F × Vec3 F × Scene F :=
  let g1 : Scene F :=
    if !g.bbox_valid then
      { g with
        bbox := get_bounds_loop g3dimpl_node_bounds g3dimpl_aabox_union g.nodes
          g3dimpl_aabox_init
        bbox_valid := true }
    else g
  (0, g1.bbox.min, g1.bbox.max, g1)

/-- Modelled from the spec: `goat3d_add_node` (goat3d.c:1018-1021) only calls
`Scene::add_node`, which is declared in goat3d_impl.h and defined in a file that is not
shown. The spec says a scene owns an ordered collection of nodes in insertion order, so
the node is appended; the declared `Scene` class has no cached box, and
`goat3d_add_node` itself writes neither `bbox` nor `bbox_valid`. -/
def goat3d_add_node {F : Type} (g : Scene F) (node : Node) : Scene F :=
  { g with nodes := g.nodes ++ [node] }

/-! ## Loading from a file name -/

/-- The search path that `goat3d_load` stores (goat3d.c:131-147): the copy of the file
name cut at its last slash, or without a slash at its last backslash, or null. -/
def load_search_path (fname : CString) : Option CString :=
  match strrchr fname '/' with
  | some i => some (fname.take i)
  | none =>
    match strrchr fname '\\' with
    | some i => some (fname.take i)
    | none => none

/-- The function `goat3d_load_file` (goat3d.c:167-176): the stream is wrapped and handed
to `goat3d_load_io`. -/
def goat3d_load_file {F S : Type} (g3dimpl_scnload_bin g3dimpl_scnload_text : Loader F S)
    (g : Scene F) (fp : S) : Int × Scene F × S :=
  goat3d_load_io g3dimpl_scnload_bin g3dimpl_scnload_text g fp

/-- The function `goat3d_load` (goat3d.c:123-152); `fopen` gives the stream of a file
that can be opened and `none` otherwise. -/
def goat3d_load {F S : Type} (fopen : CString → Option S)
    (g3dimpl_scnload_bin g3dimpl_scnload_text : Loader F S) (g : Scene F) (fname : CString) :
    Int × Scene F :=
  match fopen fname with
  | none => (-1, g)
  | some fp =>
    match goat3d_load_file g3dimpl_scnload_bin g3dimpl_scnload_text
        { g with search_path := load_search_path fname } fp with
    | (res, g1, _) => (res, g1)

/-! ## The XML writer -/

/-- What the writer has done so far: the bytes written to the stream, and the names of
the companion files that `mesh->save` has written. -/
structure XmlOut where
  out : CString
  saved : List CString
deriving DecidableEq, Repr

/-- The object a node points to, as `write_node` tells it apart with `dynamic_cast`:
a mesh, a light or a camera with its name, or nothing. -/
inductive NodeObject where
  | mesh (name : CString)
  | light (name : CString)
  | camera (name : CString)
  | null
deriving DecidableEq, Repr

/-- The collaborators of goat3d_writexml.cc that are not part of the shown sources:
the `%g` conversion of `printf`, the mesh file writer `Mesh::save`, the dereference of
a material pointer and of a parent pointer to the name behind it, and the accessors of
a node (`get_object`, `get_node_position`, `get_node_rotation` as x, y, z, w,
`get_node_scaling`, `get_pivot`, and `get_node_xform` at time 0 by row and column). -/
structure XmlEnv (F : Type) where
  fmt_g : F → CString
  mesh_save : Mesh F → CString → Bool
  material_name : Nat → CString
  parent_name : Nat → CString
  get_object : Node → NodeObject
  get_node_position : Node → Vec3 F
  get_node_rotation : Node → Vec4 F
  get_node_scaling : Node → Vec3 F
  get_pivot : Node → Vec3 F
  get_node_xform : Node → Nat → Nat → F

/-- The function `xmlout` (goat3d_writexml.cc:231-241) with the text that the format and
its arguments produce: `level` times two blanks, then the text. -/
def xmlout (o : XmlOut) (level : Nat) (text : CString) : XmlOut :=
  { o with out := o.out ++ (List.replicate level "  ".toList).flatten ++ text }

/-- The decimal digits of `n`, most significant first, at most `fuel` of them. -/
def dec_digits : Nat → Nat → CString → CString
  | 0, _, acc => acc
  | fuel + 1, n, acc =>
    if n / 10 = 0 then Char.ofNat (48 + n % 10) :: acc
    else dec_digits fuel (n / 10) (Char.ofNat (48 + n % 10) :: acc)

/-- The `%04d` conversion of `sprintf` for a non-negative argument: the decimal digits,
padded with zeros on the left to at least four characters. -/
def fmt_04d (n : Nat) : CString :=
  List.replicate (4 - (dec_digits (n + 1) n []).length) '0' ++ dec_digits (n + 1) n []

/-- The text of `"%g %g %g"` for three floats. -/
def fmt_g3 {F : Type} (env : XmlEnv F) (x y z : F) : CString :=
  env.fmt_g x ++ " ".toList ++ env.fmt_g y ++ " ".toList ++ env.fmt_g z

/-- The text of `"%g %g %g %g"` for four floats. -/
def fmt_g4 {F : Type} (env : XmlEnv F) (x y z w : F) : CString :=
  env.fmt_g x ++ " ".toList ++ env.fmt_g y ++ " ".toList ++ env.fmt_g z ++ " ".toList ++
    env.fmt_g w

/-- The text of a tag `<tag kind="value"/>` followed by a newline. -/
def xml_tag (tag kind value : CString) : CString :=
  "<".toList ++ tag ++ " ".toList ++ kind ++ "=\"".toList ++ value ++ "\"/>\n".toList

/-- The loop body of `write_material` (goat3d_writexml.cc:85-94) for one attribute. -/
def write_material_attrib {F : Type} (env : XmlEnv F) (o : XmlOut) (attr : MaterialAttrib F)
    (level : Nat) : XmlOut :=
  let o1 := xmlout o (level + 1) "<attr>\n".toList
  let o2 := xmlout o1 (level + 2) (xml_tag "name".toList "string".toList attr.name)
  let o3 := xmlout o2 (level + 2) (xml_tag "val".toList "float4".toList
    (fmt_g4 env attr.value.x attr.value.y attr.value.z attr.value.w))
  let o4 :=
    match attr.map with
    | some (c :: cs) => xmlout o3 (level + 2) (xml_tag "map".toList "string".toList (c :: cs))
    | _ => o3
  xmlout o4 (level + 1) "</attr>\n".toList

/-- The function `write_material` (goat3d_writexml.cc:79-98). -/
def write_material {F : Type} (env : XmlEnv F) (o : XmlOut) (mat : Material F) (level : Nat) :
    Bool × XmlOut :=
  let o1 := xmlout o level "<mtl>\n".toList
  let o2 := xmlout o1 (level + 1) (xml_tag "name".toList "string".toList mat.name)
  let o3 := mat.attrib.foldl (fun acc attr => write_material_attrib env acc attr level) o2
  (true, xmlout o3 level "</mtl>\n\n".toList)

/-- The name that `write_mesh` builds with `sprintf(mesh_filename, "%s-mesh%04d.ctm",
prefix, idx)` (goat3d_writexml.cc:103-109); the prefix is the scene name, or "goat" for
a null name. -/
def mesh_filename {F : Type} (scn : Scene F) (idx : Nat) : CString :=
  (match scn.name with
    | some name => name
    | none => "goat".toList) ++ "-mesh".toList ++ fmt_04d idx ++ ".ctm".toList

/-- The function `write_mesh` (goat3d_writexml.cc:100-124). -/
def write_mesh {F : Type} (env : XmlEnv F) (scn : Scene F) (o : XmlOut) (mesh : Mesh F)
    (idx : Nat) (level : Nat) : Bool × XmlOut :=
  if !env.mesh_save mesh (mesh_filename scn idx) then (false, o)
  else
    let o0 : XmlOut := { o with saved := o.saved ++ [mesh_filename scn idx] }
    let o1 := xmlout o0 level "<mesh>\n".toList
    let o2 := xmlout o1 (level + 1) (xml_tag "name".toList "string".toList mesh.name)
    let o3 :=
      match mesh.material with
      | some mtl =>
        xmlout o2 (level + 1) (xml_tag "material".toList "string".toList (env.material_name mtl))
      | none => o2
    let o4 := xmlout o3 (level + 1)
      (xml_tag "file".toList "string".toList (clean_filename (mesh_filename scn idx)))
    (true, xmlout o4 level "</mesh>\n\n".toList)

/-- The function `write_light` (goat3d_writexml.cc:126-129). -/
def write_light (o : XmlOut) (_light : Light) (_level : Nat) : Bool × XmlOut := (true, o)

/-- The function `write_camera` (goat3d_writexml.cc:131-134). -/
def write_camera (o : XmlOut) (_cam : Camera) (_level : Nat) : Bool × XmlOut := (true, o)

/-- The function `write_node` (goat3d_writexml.cc:136-179). -/
def write_node {F : Type} (env : XmlEnv F) (o : XmlOut) (node : Node) (level : Nat) :
    Bool × XmlOut :=
  let o1 := xmlout o level "<node>\n".toList
  let o2 := xmlout o1 (level + 1) (xml_tag "name".toList "string".toList node.name)
  let o3 :=
    match node.parent with
    | some parent =>
      xmlout o2 (level + 1) (xml_tag "parent".toList "string".toList (env.parent_name parent))
    | none => o2
  let o4 :=
    match env.get_object node with
    | .mesh name => xmlout o3 (level + 1) (xml_tag "mesh".toList "string".toList name)
    | .light name => xmlout o3 (level + 1) (xml_tag "light".toList "string".toList name)
    | .camera name => xmlout o3 (level + 1) (xml_tag "camera".toList "string".toList name)
    | .null => o3
  let pos := env.get_node_position node
  let rot := env.get_node_rotation node
  let scale := env.get_node_scaling node
  let pivot := env.get_pivot node
  let xform := env.get_node_xform node
  let o5 := xmlout o4 (level + 1) (xml_tag "pos".toList "float3".toList
    (fmt_g3 env pos.x pos.y pos.z))
  let o6 := xmlout o5 (level + 1) (xml_tag "rot".toList "float4".toList
    (fmt_g4 env rot.x rot.y rot.z rot.w))
  let o7 := xmlout o6 (level + 1) (xml_tag "scale".toList "float3".toList
    (fmt_g3 env scale.x scale.y scale.z))
  let o8 := xmlout o7 (level + 1) (xml_tag "pivot".toList "float3".toList
    (fmt_g3 env pivot.x pivot.y pivot.z))
  let o9 := xmlout o8 (level + 1) (xml_tag "matrix0".toList "float4".toList
    (fmt_g4 env (xform 0 0) (xform 0 1) (xform 0 2) (xform 0 3)))
  let o10 := xmlout o9 (level + 1) (xml_tag "matrix1".toList "float4".toList
    (fmt_g4 env (xform 1 0) (xform 1 1) (xform 1 2) (xform 1 3)))
  let o11 := xmlout o10 (level + 1) (xml_tag "matrix2".toList "float4".toList
    (fmt_g4 env (xform 2 0) (xform 2 1) (xform 2 2) (xform 2 3)))
  (true, xmlout o11 level "</node>\n".toList)

/-- The mesh loop of `Scene::savexml` (goat3d_writexml.cc:29-31) from index `i` on; the
result of `write_mesh` is dropped. -/
def savexml_meshes {F : Type} (env : XmlEnv F) (scn : Scene F) :
    List (Mesh F) → Nat → XmlOut → XmlOut
  | [], _, o => o
  | mesh :: rest, i, o => savexml_meshes env scn rest (i + 1) (write_mesh env scn o mesh i 1).2

/-- The function `Scene::savexml` (goat3d_writexml.cc:17-44): the results of the
`write_` functions are dropped and `true` is returned. -/
def savexml {F : Type} (env : XmlEnv F) (scn : Scene F) (o : XmlOut) : Bool × XmlOut :=
  let o1 := xmlout o 0 "<scene>\n".toList
  let o2 := xmlout o1 1 "<env>\n".toList
  let o3 := xmlout o2 2 (xml_tag "ambient".toList "float3".toList
    (fmt_g3 env scn.ambient.x scn.ambient.y scn.ambient.z))
  let o4 := xmlout o3 1 "</env>\n\n".toList
  let o5 := scn.materials.foldl (fun acc mat => (write_material env acc mat 1).2) o4
  let o6 := savexml_meshes env scn scn.meshes 0 o5
  let o7 := scn.lights.foldl (fun acc light => (write_light acc light 1).2) o6
  let o8 := scn.cameras.foldl (fun acc cam => (write_camera acc cam 1).2) o7
  let o9 := scn.nodes.foldl (fun acc node => (write_node env acc node 1).2) o8
  (true, xmlout o9 0 "</scene>\n".toList)

/-! ## Initialisation and saving -/

/-- The success of the allocations `goat3d_init` makes: the `malloc` of the name, the
five `dynarr_alloc` calls, and the `malloc` of the name in the `goat3d_clear` that
`goat3d_destroy` runs on the error path. -/
structure InitOk where
  name : Bool
  materials : Bool
  meshes : Bool
  lights : Bool
  cameras : Bool
  nodes : Bool
  destroy_name : Bool
deriving DecidableEq, Repr

/-- Every allocation succeeds. -/
def InitOk.all : InitOk := ⟨true, true, true, true, true, true, true⟩

/-- The scene after `memset(g, 0, sizeof *g)`. -/
def zeroed_scene (F : Type) [Zero F] : Scene F :=
  { name := none, ambient := ⟨0, 0, 0⟩, materials := [], meshes := [], lights := [],
    cameras := [], nodes := [], flags := 0, search_path := none,
    bbox := ⟨⟨0, 0, 0⟩, ⟨0, 0, 0⟩⟩, bbox_valid := false }

/-- The function `goat3d_destroy` (goat3d.c:78-87): `goat3d_clear`, then the five arrays
are freed. -/
def goat3d_destroy {F : Type} (malloc_ok : Bool) (g : Scene F) : Scene F :=
  goat3d_clear malloc_ok g

/-- The function `goat3d_init` (goat3d.c:57-76). The enumerator `GOAT3D_OPT_SAVEXML` is
declared in goat3d.h, which is not shown, and is a parameter; `amb` is the float
constant 0.05. -/
def goat3d_init {F : Type} [Zero F] (GOAT3D_OPT_SAVEXML : Nat) (amb : F) (ok : InitOk) :
    Int × Scene F :=
  match goat3d_set_name ok.name (zeroed_scene F) "unnamed".toList with
  | (res, g1) =>
    if res = -1 then (-1, goat3d_destroy ok.destroy_name g1)
    else
      let g2 : Scene F := { g1 with ambient := ⟨amb, amb, amb⟩ }
      if !ok.materials then (-1, goat3d_destroy ok.destroy_name g2)
      else if !ok.meshes then (-1, goat3d_destroy ok.destroy_name g2)
      else if !ok.lights then (-1, goat3d_destroy ok.destroy_name g2)
      else if !ok.cameras then (-1, goat3d_destroy ok.destroy_name g2)
      else if !ok.nodes then (-1, goat3d_destroy ok.destroy_name g2)
      else (0, goat3d_setopt g2 GOAT3D_OPT_SAVEXML 1)

/-- A scene writer (`g3dimpl_scnsave_text`, `g3dimpl_scnsave_bin`; neither is part of
the shown sources): it reads the scene, writes to the stream `S` and returns an
`int`. -/
abbrev Saver (F S : Type) := Scene F → S → Int × S

/-- An animation writer (`g3dimpl_anmsave_text`, `g3dimpl_anmsave_bin`; neither is part
of the shown sources): it is given the stream alone. -/
abbrev AnimSaver (S : Type) := S → Int × S

/-- The function `goat3d_save_io` (goat3d.c:199-208). The two option enumerators are
declared in goat3d.h, which is not shown, and are parameters. -/
def goat3d_save_io {F S : Type} (GOAT3D_OPT_SAVEXML GOAT3D_OPT_SAVETEXT : Nat)
    (g3dimpl_scnsave_text g3dimpl_scnsave_bin : Saver F S) (g : Scene F) (s : S) : Int × S :=
  if goat3d_getopt g GOAT3D_OPT_SAVEXML ≠ 0 then (-1, s)
  else if goat3d_getopt g GOAT3D_OPT_SAVETEXT ≠ 0 then g3dimpl_scnsave_text g s
  else g3dimpl_scnsave_bin g s

/-- The function `goat3d_save_anim_io` (goat3d.c:271-280). -/
def goat3d_save_anim_io {F S : Type} (GOAT3D_OPT_SAVEXML GOAT3D_OPT_SAVETEXT : Nat)
    (g3dimpl_anmsave_text g3dimpl_anmsave_bin : AnimSaver S) (g : Scene F) (s : S) : Int × S :=
  if goat3d_getopt g GOAT3D_OPT_SAVEXML ≠ 0 then (-1, s)
  else if goat3d_getopt g GOAT3D_OPT_SAVETEXT ≠ 0 then g3dimpl_anmsave_text s
  else g3dimpl_anmsave_bin s

/-! ## Concrete inputs -/

/-- The C conversion from `float` to `int` (truncation toward zero) on the rational
numbers that stand for floats in the concrete examples. -/
def rat_ftoi (q : Rat) : Int := Int.tdiv q.num q.den

/-- The state after `goat3d_begin(mesh, GOAT3D_QUADS)` on a fresh mesh followed by four
`goat3d_vertex3f` calls. -/
def quad_world : ImWorld Rat :=
  (MeshOp.run rat_ftoi (ImWorld.fresh Rat)
    [.begin_ .GOAT3D_QUADS, .vertex3f PushOk.all 0 0 0, .vertex3f PushOk.all 1 0 0,
     .vertex3f PushOk.all 1 1 0, .vertex3f PushOk.all 0 1 0]).getD (ImWorld.fresh Rat)

/-- The state after `goat3d_begin(mesh, GOAT3D_TRIANGLES)` on a fresh mesh followed by
seven `goat3d_vertex3f` calls. -/
def tri_world : ImWorld Rat :=
  (MeshOp.run rat_ftoi (ImWorld.fresh Rat)
    [.begin_ .GOAT3D_TRIANGLES, .vertex3f PushOk.all 0 0 0, .vertex3f PushOk.all 1 0 0,
     .vertex3f PushOk.all 1 1 0, .vertex3f PushOk.all 0 1 0, .vertex3f PushOk.all 0 0 1,
     .vertex3f PushOk.all 1 0 1, .vertex3f PushOk.all 1 1 1]).getD (ImWorld.fresh Rat)

/-- A sequence of calls that keeps to the discipline: two vertices and their normals
set as arrays, then a quad streamed in immediate mode with a normal and a colour
latched before the first vertex and the normal changed between vertices. -/
def good_trace : List (MeshOp Rat) :=
  [.set_mesh_attribs true .GOAT3D_MESH_ATTR_VERTEX (fun _ => (⟨0, 0, 0⟩ : Vec3 Rat)) 2,
   .set_mesh_attribs true .GOAT3D_MESH_ATTR_NORMAL (fun _ => (⟨0, 0, 1⟩ : Vec3 Rat)) 2,
   .begin_ .GOAT3D_QUADS, .normal3f 0 0 1, .color4f 1 0 0 1,
   .vertex3f PushOk.all 0 0 0, .normal3f 0 1 0, .vertex3f PushOk.all 1 0 0,
   .vertex3f PushOk.all 1 1 0, .vertex3f PushOk.all 0 1 0, .end_ true]

/-- The state `good_trace` ends in. -/
def good_final : ImWorld Rat :=
  (MeshOp.run rat_ftoi (ImWorld.fresh Rat) good_trace).getD (ImWorld.fresh Rat)

/-- One successful `goat3d_add_mesh_attrib3f` of a normal on a fresh mesh. -/
def add_normal_trace : List (MeshOp Rat) :=
  [.add_mesh_attrib3f true .GOAT3D_MESH_ATTR_NORMAL 0 0 1]

/-- The state `add_normal_trace` ends in. -/
def add_normal_final : ImWorld Rat :=
  (MeshOp.run rat_ftoi (ImWorld.fresh Rat) add_normal_trace).getD (ImWorld.fresh Rat)

/-- An immediate mode sequence whose normal is latched after the first vertex. -/
def late_normal_trace : List (MeshOp Rat) :=
  [.begin_ .GOAT3D_TRIANGLES, .vertex3f PushOk.all 0 0 0, .normal3f 0 0 1,
   .vertex3f PushOk.all 1 0 0]

/-- The state `late_normal_trace` ends in. -/
def late_normal_final : ImWorld Rat :=
  (MeshOp.run rat_ftoi (ImWorld.fresh Rat) late_normal_trace).getD (ImWorld.fresh Rat)

/-- A scene holding one material, one mesh, one light, one camera and one node. -/
def populated_scene : Scene Rat :=
  { name := some "room".toList, ambient := ⟨0, 0, 0⟩,
    materials := [⟨"mtl_1".toList, []⟩],
    meshes := [{ Mesh.fresh Rat with name := "box".toList }],
    lights := [⟨"lamp".toList⟩], cameras := [⟨"cam".toList⟩],
    nodes := [⟨"root".toList, none⟩],
    flags := 0, search_path := none, bbox := ⟨⟨0, 0, 0⟩, ⟨0, 0, 0⟩⟩, bbox_valid := false }

/-- The cleared state of the spec: the name "unnamed" and empty collections. -/
def cleared_scene : Scene Rat :=
  { populated_scene with
    name := some "unnamed".toList, materials := [], meshes := [], lights := [], cameras := [],
    nodes := [] }

/-- A loader that fails: it returns -1 and leaves the scene cleared. -/
def loader_fails : Loader Rat Unit := fun _ s => (-1, cleared_scene, s)

/-- A loader that succeeds: it returns 0 with one material, one mesh and one node
loaded. -/
def loader_succeeds : Loader Rat Unit := fun _ s => (0, populated_scene, s)

/-- A loader that fails at once: it returns -1 and leaves the scene as it found it. -/
def loader_fails_at_once : Loader Rat Unit := fun g s => (-1, g, s)

/-- A mesh with one vertex and no other attribute. -/
def one_vertex_mesh : Mesh Rat :=
  { Mesh.fresh Rat with vertices := [⟨0, 0, 0⟩] }

/-- A box used as the result of `g3dimpl_aabox_init` in the examples: an inverted box,
which the union with any other box replaces. -/
def inverted_box : AABox Rat := ⟨⟨1, 1, 1⟩, ⟨0, 0, 0⟩⟩

/-- The unit cube, used as the bounds of every node in the examples. -/
def unit_box : AABox Rat := ⟨⟨0, 0, 0⟩, ⟨1, 1, 1⟩⟩

/-- The union of two boxes: the smaller minimum and the larger maximum on each axis. -/
def box_union (a b : AABox Rat) : AABox Rat :=
  ⟨⟨min a.min.x b.min.x, min a.min.y b.min.y, min a.min.z b.min.z⟩,
   ⟨max a.max.x b.max.x, max a.max.y b.max.y, max a.max.z b.max.z⟩⟩

/-- The scene cache after a first `goat3d_get_bounds` on a scene without nodes. -/
def scene_after_bounds : Scene Rat :=
  (goat3d_get_bounds inverted_box (fun _ => unit_box) box_union cleared_scene).2.2.2

/-- The scene after a parentless node is then added with `goat3d_add_node`. -/
def scene_after_add_node : Scene Rat :=
  goat3d_add_node scene_after_bounds ⟨"root".toList, none⟩

/-- A file system in which every file can be opened. -/
def fopen_any : CString → Option Unit := fun _ => some ()

/-- Collaborators of the XML writer for the examples: every float prints as "0", nodes
point to no object, and the mesh file writer succeeds. -/
def xml_env_ok : XmlEnv Rat :=
  { fmt_g := fun _ => "0".toList, mesh_save := fun _ _ => true,
    material_name := fun _ => "mtl_1".toList, parent_name := fun _ => "root".toList,
    get_object := fun _ => .null,
    get_node_position := fun _ => ⟨0, 0, 0⟩, get_node_rotation := fun _ => ⟨0, 0, 0, 1⟩,
    get_node_scaling := fun _ => ⟨1, 1, 1⟩, get_pivot := fun _ => ⟨0, 0, 0⟩,
    get_node_xform := fun _ _ _ => 0 }

/-- The same collaborators with a mesh file writer that fails. -/
def xml_env_fail : XmlEnv Rat := { xml_env_ok with mesh_save := fun _ _ => false }

/-- A scene named "Room" with one mesh and one node. -/
def room_scene : Scene Rat :=
  { populated_scene with name := some "Room".toList, materials := [] }

/-- A scene writer for the examples: it appends one line to the stream and returns 0. -/
def saver_text : Saver Rat (List CString) := fun _ s => (0, s ++ ["text".toList])

/-- A second scene writer for the examples, told apart by the line it appends. -/
def saver_bin : Saver Rat (List CString) := fun _ s => (0, s ++ ["bin".toList])

/-- The scene that `goat3d_init` leaves when every allocation succeeds, with
`GOAT3D_OPT_SAVEXML` taken as option 0. -/
def fresh_scene : Scene Rat := (goat3d_init 0 (1 / 20) InitOk.all).2

/-! # Theorems -/

/-! ## Lists: first match and update in place -/

theorem find_first_none_iff {α : Type} (p : α → Bool) (l : List α) :
    find_first p l = none ↔ ∀ x ∈ l, p x = false := by
  induction l with
  | nil => simp [find_first]
  | cons a t ih =>
    by_cases h : p a = true
    · simp [find_first, h]
    · simp only [Bool.not_eq_true] at h
      simp [find_first, h, ih]

theorem find_first_some_iff {α : Type} (p : α → Bool) (l : List α) (i : Nat) :
    find_first p l = some i ↔
      (∃ x, l.get? i = some x ∧ p x = true) ∧
      ∀ j, j < i → ∀ y, l.get? j = some y → p y = false := by
  induction l generalizing i with
  | nil => simp [find_first]
  | cons a t ih =>
    by_cases h : p a = true
    · cases i with
      | zero => simp [find_first, h]
      | succ k =>
        simp only [find_first, h, if_true]
        constructor
        · intro hk; simp at hk
        · rintro ⟨-, hall⟩
          have := hall 0 (Nat.succ_pos k) a (by simp)
          simp [h] at this
    · simp only [Bool.not_eq_true] at h
      cases i with
      | zero => simp [find_first, h]
      | succ k =>
        simp only [find_first, h, Bool.false_eq_true, if_false, Option.map_eq_some']
        constructor
        · rintro ⟨m, hm, hmk⟩
          have hmk1 : m = k := by omega
          subst hmk1
          obtain ⟨hx, hall⟩ := (ih m).1 hm
          refine ⟨by simpa using hx, ?_⟩
          intro j hj y hy
          cases j with
          | zero => simp at hy; subst hy; exact h
          | succ j1 => exact hall j1 (by omega) y (by simpa using hy)
        · rintro ⟨hx, hall⟩
          refine ⟨k, (ih k).2 ⟨by simpa using hx, ?_⟩, rfl⟩
          intro j hj y hy
          exact hall (j + 1) (by omega) y (by simpa using hy)

theorem find_first_modify_at {α : Type} (p : α → Bool) (f : α → α)
    (hf : ∀ x, p (f x) = p x) (l : List α) (i : Nat) :
    find_first p (modify_at f l i) = find_first p l := by
  induction l generalizing i with
  | nil => simp [modify_at]
  | cons a t ih =>
    cases i with
    | zero => simp [modify_at, find_first, hf]
    | succ k => simp [modify_at, find_first, ih]

theorem get?_modify_at {α : Type} (f : α → α) (l : List α) (i : Nat) :
    (modify_at f l i).get? i = (l.get? i).map f := by
  induction l generalizing i with
  | nil => simp [modify_at]
  | cons a t ih =>
    cases i with
    | zero => simp [modify_at]
    | succ k => simpa [modify_at] using ih k

theorem get?_modify_at_ne {α : Type} (f : α → α) (l : List α) (i j : Nat) (h : j ≠ i) :
    (modify_at f l i).get? j = l.get? j := by
  induction l generalizing i j with
  | nil => simp [modify_at]
  | cons a t ih =>
    cases i with
    | zero =>
      cases j with
      | zero => exact absurd rfl h
      | succ j1 => simp [modify_at]
    | succ k =>
      cases j with
      | zero => simp [modify_at]
      | succ j1 => simpa [modify_at] using ih k j1 (by omega)

theorem length_modify_at {α : Type} (f : α → α) (l : List α) (i : Nat) :
    (modify_at f l i).length = l.length := by
  induction l generalizing i with
  | nil => simp [modify_at]
  | cons a t ih =>
    cases i with
    | zero => simp [modify_at]
    | succ k => simp [modify_at, ih]

theorem find_first_append_new {α : Type} (p : α → Bool) (l : List α) (x : α)
    (hl : find_first p l = none) (hx : p x = true) :
    find_first p (l ++ [x]) = some l.length := by
  induction l with
  | nil => simp [find_first, hx]
  | cons a t ih =>
    have ha : p a = false := (find_first_none_iff p (a :: t)).1 hl a (by simp)
    have ht : find_first p t = none := by
      simpa [find_first, ha] using hl
    simp [find_first, ha, ih ht]

theorem find_first_get? {α : Type} (p : α → Bool) (l : List α) (i : Nat)
    (h : find_first p l = some i) : ∃ x, l.get? i = some x ∧ p x = true :=
  ((find_first_some_iff p l i).1 h).1

/-! ## Material attributes -/

/-- After `g3dimpl_mtl_getattr` returns an attribute, that attribute exists, is the
first one of the requested name and lookups of the name find it. -/
theorem getattr_found {F : Type} [Zero F] [One F] (alloc_ok : Bool) (mtl : Material F)
    (name : CString) (mtl1 : Material F) (i : Nat)
    (h : g3dimpl_mtl_getattr alloc_ok mtl name = (mtl1, some i)) :
    g3dimpl_mtl_findattr mtl1 name = some i ∧ ∃ ma, mtl1.attrib.get? i = some ma := by
  unfold g3dimpl_mtl_getattr at h
  cases hf : g3dimpl_mtl_findattr mtl name with
  | some k =>
    simp only [hf, Prod.mk.injEq, Option.some.injEq] at h
    obtain ⟨rfl, rfl⟩ := h
    refine ⟨hf, ?_⟩
    obtain ⟨x, hx, -⟩ := find_first_get? _ _ _ hf
    exact ⟨x, hx⟩
  | none =>
    simp only [hf] at h
    cases alloc_ok with
    | false => simp at h
    | true =>
      simp only [if_true, Prod.mk.injEq, Option.some.injEq] at h
      obtain ⟨rfl, rfl⟩ := h
      constructor
      · exact find_first_append_new _ _ _ hf (by simp [strcmp_eq])
      · simp

/-- Writing the value of an attribute and reading the attribute's name back gives the
written four floats. -/
theorem set_get_mtl_attrib4f {F : Type} [Zero F] [One F] (alloc_ok : Bool)
    (mtl : Material F) (attrib : CString) (r g b a : F)
    (h : (goat3d_set_mtl_attrib4f alloc_ok mtl attrib r g b a).1 = 0) :
    goat3d_get_mtl_attrib (goat3d_set_mtl_attrib4f alloc_ok mtl attrib r g b a).2 attrib
      = some ⟨r, g, b, a⟩ := by
  unfold goat3d_set_mtl_attrib4f at h ⊢
  rcases hg : g3dimpl_mtl_getattr alloc_ok mtl attrib with ⟨mtl1, _ | i⟩
  · simp [hg] at h
  · obtain ⟨hfind, ma, hma⟩ := getattr_found alloc_ok mtl attrib mtl1 i hg
    simp only [hg]
    unfold goat3d_get_mtl_attrib g3dimpl_mtl_findattr
    unfold g3dimpl_mtl_findattr at hfind
    have key := find_first_modify_at (fun (ma : MaterialAttrib F) => strcmp_eq ma.name attrib)
      (fun ma => { ma with value := (⟨r, g, b, a⟩ : Vec4 F) }) (fun _ => rfl) mtl1.attrib i
    simp only [key, hfind, get?_modify_at, hma]
    rfl

/-- `goat3d_set_mtl_attrib4f` returns 0 when the attribute exists already or the
allocation of a new one succeeds; then the attribute is found under its name. -/
theorem set_mtl_attrib4f_succeeds {F : Type} [Zero F] [One F] (alloc_ok : Bool)
    (mtl : Material F) (attrib : CString) (r g b a : F)
    (h : alloc_ok = true ∨ (g3dimpl_mtl_findattr mtl attrib).isSome = true) :
    (goat3d_set_mtl_attrib4f alloc_ok mtl attrib r g b a).1 = 0 := by
  unfold goat3d_set_mtl_attrib4f g3dimpl_mtl_getattr
  cases hf : g3dimpl_mtl_findattr mtl attrib with
  | some i => simp
  | none =>
    rcases h with h | h
    · simp [h]
    · simp [hf] at h

/-- `goat3d_set_mtl_attrib4f` returns -1 and leaves the material as it was when the
attribute does not exist and the allocation of a new one fails. -/
theorem set_mtl_attrib4f_fails {F : Type} [Zero F] [One F]
    (mtl : Material F) (attrib : CString) (r g b a : F)
    (h : g3dimpl_mtl_findattr mtl attrib = none) :
    goat3d_set_mtl_attrib4f false mtl attrib r g b a = (-1, mtl) := by
  simp [goat3d_set_mtl_attrib4f, g3dimpl_mtl_getattr, h]

/-- C1: `goat3d_set_mtl_attrib3f(mtl, attrib, r, g, b)` and
`goat3d_set_mtl_attrib1f(mtl, attrib, v)` succeed (return 0) whenever the attribute
exists already or the allocation of a new one succeeds, and otherwise return -1 and
leave the material as it was. Whenever the 3f setter returns 0, reading `attrib` back
with `goat3d_get_mtl_attrib` yields (r, g, b, 1); whenever the 1f setter returns 0,
reading back yields (v, 0, 0, 1). -/
theorem short_setters_fill_defaults {F : Type} [Zero F] [One F] (alloc_ok : Bool)
    (mtl : Material F) (attrib : CString) (r g b v : F) :
    ((alloc_ok = true ∨ (g3dimpl_mtl_findattr mtl attrib).isSome = true) →
      (goat3d_set_mtl_attrib3f alloc_ok mtl attrib r g b).1 = 0 ∧
      goat3d_get_mtl_attrib (goat3d_set_mtl_attrib3f alloc_ok mtl attrib r g b).2 attrib
        = some ⟨r, g, b, 1⟩ ∧
      (goat3d_set_mtl_attrib1f alloc_ok mtl attrib v).1 = 0 ∧
      goat3d_get_mtl_attrib (goat3d_set_mtl_attrib1f alloc_ok mtl attrib v).2 attrib
        = some ⟨v, 0, 0, 1⟩) ∧
    (g3dimpl_mtl_findattr mtl attrib = none →
      goat3d_set_mtl_attrib3f false mtl attrib r g b = (-1, mtl) ∧
      goat3d_set_mtl_attrib1f false mtl attrib v = (-1, mtl)) ∧
    ((goat3d_set_mtl_attrib3f alloc_ok mtl attrib r g b).1 = 0 →
      goat3d_get_mtl_attrib (goat3d_set_mtl_attrib3f alloc_ok mtl attrib r g b).2 attrib
        = some ⟨r, g, b, 1⟩) ∧
    ((goat3d_set_mtl_attrib1f alloc_ok mtl attrib v).1 = 0 →
      goat3d_get_mtl_attrib (goat3d_set_mtl_attrib1f alloc_ok mtl attrib v).2 attrib
        = some ⟨v, 0, 0, 1⟩) := by
  refine ⟨?_, ?_, set_get_mtl_attrib4f alloc_ok mtl attrib r g b 1,
    set_get_mtl_attrib4f alloc_ok mtl attrib v 0 0 1⟩
  · intro h
    have h3 := set_mtl_attrib4f_succeeds alloc_ok mtl attrib r g b 1 h
    have h1 := set_mtl_attrib4f_succeeds alloc_ok mtl attrib v 0 0 1 h
    exact ⟨h3, set_get_mtl_attrib4f alloc_ok mtl attrib r g b 1 h3,
      h1, set_get_mtl_attrib4f alloc_ok mtl attrib v 0 0 1 h1⟩
  · intro h
    exact ⟨set_mtl_attrib4f_fails mtl attrib r g b 1 h,
      set_mtl_attrib4f_fails mtl attrib v 0 0 1 h⟩

/-- C1, the scenario: on material "mtl_1" without attributes, "diffuse" set to 1, 0, 0
with the 3f setter succeeds and reads back (1, 0, 0, 1), and "shininess" set to 40 with
the 1f setter succeeds and reads back (40, 0, 0, 1). -/
theorem short_setters_fill_defaults_witness :
    (goat3d_set_mtl_attrib3f true (⟨"mtl_1".toList, []⟩ : Material Rat)
        "diffuse".toList 1 0 0).1 = 0 ∧
    goat3d_get_mtl_attrib (goat3d_set_mtl_attrib3f true (⟨"mtl_1".toList, []⟩ : Material Rat)
        "diffuse".toList 1 0 0).2 "diffuse".toList = some ⟨1, 0, 0, 1⟩ ∧
    (goat3d_set_mtl_attrib1f true (⟨"mtl_1".toList, []⟩ : Material Rat)
        "shininess".toList 40).1 = 0 ∧
    goat3d_get_mtl_attrib (goat3d_set_mtl_attrib1f true (⟨"mtl_1".toList, []⟩ : Material Rat)
        "shininess".toList 40).2 "shininess".toList = some ⟨40, 0, 0, 1⟩ :=
  ⟨((short_setters_fill_defaults true (⟨"mtl_1".toList, []⟩ : Material Rat)
      "diffuse".toList 1 0 0 40).1 (Or.inl rfl)).1,
   ((short_setters_fill_defaults true (⟨"mtl_1".toList, []⟩ : Material Rat)
      "diffuse".toList 1 0 0 40).1 (Or.inl rfl)).2.1,
   ((short_setters_fill_defaults true (⟨"mtl_1".toList, []⟩ : Material Rat)
      "shininess".toList 1 0 0 40).1 (Or.inl rfl)).2.2.1,
   (short_setters_fill_defaults true (⟨"mtl_1".toList, []⟩ : Material Rat)
      "shininess".toList 1 0 0 40).2.2.2 (by decide)⟩

/-! ## File name cleaning -/

theorem strrchr_none_iff (s : CString) (c : Char) : strrchr s c = none ↔ c ∉ s := by
  induction s with
  | nil => simp [strrchr]
  | cons a t ih =>
    cases ht : strrchr t c with
    | some i =>
      have : c ∈ t := by
        by_contra hc
        rw [ih.2 hc] at ht
        cases ht
      simp [strrchr, ht, this]
    | none =>
      have hc : c ∉ t := ih.1 ht
      by_cases hac : a = c
      · simp [strrchr, ht, hac]
      · have hca : ¬ c = a := fun h => hac h.symm
        simp [strrchr, ht, hac, hc, hca]

theorem strrchr_some_split (s : CString) (c : Char) (i : Nat) (h : strrchr s c = some i) :
    ∃ pre suf, s = pre ++ c :: suf ∧ c ∉ suf ∧ pre.length = i ∧ s.drop (i + 1) = suf := by
  induction s generalizing i with
  | nil => simp [strrchr] at h
  | cons a t ih =>
    cases ht : strrchr t c with
    | some k =>
      simp only [strrchr, ht, Option.some.injEq] at h
      subst h
      obtain ⟨pre, suf, hs, hsuf, hlen, hdrop⟩ := ih k ht
      exact ⟨a :: pre, suf, by simp [hs], hsuf, by simp [hlen], by simpa using hdrop⟩
    | none =>
      have hc : c ∉ t := (strrchr_none_iff t c).1 ht
      by_cases hac : a = c
      · simp only [strrchr, ht, hac, if_true, Option.some.injEq] at h
        subst h
        exact ⟨[], t, by simp [hac], hc, rfl, by simp⟩
      · simp [strrchr, ht, hac] at h

theorem upper_iff_toNat (c : Char) : ('A' ≤ c ∧ c ≤ 'Z') ↔ (65 ≤ c.toNat ∧ c.toNat ≤ 90) := by
  simp only [Char.le_def, UInt32.le_def, Char.toNat, UInt32.toNat]
  constructor
  · rintro ⟨h1, h2⟩
    exact ⟨h1, h2⟩
  · rintro ⟨h1, h2⟩
    exact ⟨h1, h2⟩

/-- Either `tolower` leaves a character that is no upper-case letter alone, or it maps an
upper-case letter to a lower-case one. -/
theorem tolower_cases (c : Char) :
    (tolower c = c ∧ ¬ ('A' ≤ c ∧ c ≤ 'Z')) ∨
    (('A' ≤ c ∧ c ≤ 'Z') ∧ 'a' ≤ tolower c ∧ tolower c ≤ 'z') := by
  by_cases h : 'A' ≤ c ∧ c ≤ 'Z'
  · right
    refine ⟨h, ?_⟩
    have h2 := (upper_iff_toNat c).1 h
    simp only [tolower, h, and_self, if_true]
    obtain ⟨n, hn⟩ : ∃ n, c.toNat = n := ⟨_, rfl⟩
    rw [hn] at h2 ⊢
    obtain ⟨h3, h4⟩ := h2
    interval_cases n <;> decide
  · left
    exact ⟨by simp [tolower, h], h⟩

theorem tolower_not_upper (c : Char) : ¬ ('A' ≤ tolower c ∧ tolower c ≤ 'Z') := by
  rcases tolower_cases c with ⟨he, hn⟩ | ⟨-, ha, hz⟩
  · rw [he]; exact hn
  · rintro ⟨-, hZ⟩
    have h1 : ('a' : Char) ≤ 'Z' := le_trans ha hZ
    exact absurd h1 (by decide)

/-- A character that `tolower` maps to `d`, where `d` is no letter, is `d` itself. -/
theorem tolower_eq_nonletter (c d : Char) (hd : ¬ ('a' ≤ d ∧ d ≤ 'z')) (h : tolower c = d) :
    c = d := by
  rcases tolower_cases c with ⟨he, -⟩ | ⟨-, ha, hz⟩
  · rw [← he]; exact h
  · rw [h] at ha hz
    exact absurd ⟨ha, hz⟩ hd

theorem not_mem_map_tolower (s : CString) (d : Char) (hd : ¬ ('a' ≤ d ∧ d ≤ 'z'))
    (h : d ∉ s) : d ∉ s.map tolower := by
  intro hm
  obtain ⟨c, hc, hcd⟩ := List.mem_map.1 hm
  have := tolower_eq_nonletter c d hd hcd
  subst this
  exact h hc

theorem clean_filename_start_le (p : CString) : clean_filename_start p ≤ p.length := by
  unfold clean_filename_start
  cases h1 : strrchr p '/' with
  | some i =>
    obtain ⟨pre, suf, hs, -, hlen, -⟩ := strrchr_some_split p '/' i h1
    have : p.length = pre.length + (suf.length + 1) := by rw [hs]; simp
    simp only
    omega
  | none =>
    cases h2 : strrchr p '\\' with
    | some i =>
      obtain ⟨pre, suf, hs, -, hlen, -⟩ := strrchr_some_split p '\\' i h2
      have : p.length = pre.length + (suf.length + 1) := by rw [hs]; simp
      simp only
      omega
    | none => simp

/-- The buffer that `goat3d_set_mtl_attrib_map` leaves in `ma->map` holds exactly the
result of `clean_filename` on the given path. -/
theorem attrib_map_buffer_eq (p : CString) : attrib_map_buffer p = clean_filename p := by
  have hle := clean_filename_start_le p
  unfold attrib_map_buffer
  simp only
  split
  · have hlen : (List.take (clean_filename_start p) p).length = clean_filename_start p := by
      simp [hle]
    rw [List.drop_left' hlen]
    apply List.take_of_length_le
    simp [clean_filename]
  · rename_i h0
    have : clean_filename_start p = 0 := by simpa using h0
    simp [this]

/-- What `clean_filename` returns, in terms of the path alone: the lower-cased part
after the last slash; without a slash, after the last backslash; without either, the
whole lower-cased path. -/
theorem clean_filename_spec (p : CString) :
    (∃ pre suf, p = pre ++ '/' :: suf ∧ '/' ∉ suf ∧ clean_filename p = suf.map tolower) ∨
    ('/' ∉ p ∧ ∃ pre suf, p = pre ++ '\\' :: suf ∧ '\\' ∉ suf ∧
      clean_filename p = suf.map tolower) ∨
    ('/' ∉ p ∧ '\\' ∉ p ∧ clean_filename p = p.map tolower) := by
  unfold clean_filename clean_filename_start
  cases h1 : strrchr p '/' with
  | some i =>
    obtain ⟨pre, suf, hs, hsuf, -, hdrop⟩ := strrchr_some_split p '/' i h1
    left
    exact ⟨pre, suf, hs, hsuf, by simp only [hdrop]⟩
  | none =>
    have hno : '/' ∉ p := (strrchr_none_iff p '/').1 h1
    right
    cases h2 : strrchr p '\\' with
    | some i =>
      obtain ⟨pre, suf, hs, hsuf, -, hdrop⟩ := strrchr_some_split p '\\' i h2
      left
      exact ⟨hno, pre, suf, hs, hsuf, by simp only [hdrop]⟩
    | none =>
      right
      exact ⟨hno, (strrchr_none_iff p '\\').1 h2, by simp⟩

/-- The result of `clean_filename` has no slash and no upper-case letter, and has no
backslash when the path has no slash. -/
theorem clean_filename_chars (p : CString) :
    '/' ∉ clean_filename p ∧
    (∀ c ∈ clean_filename p, ¬ ('A' ≤ c ∧ c ≤ 'Z')) ∧
    ('/' ∉ p → '\\' ∉ clean_filename p) := by
  refine ⟨?_, ?_, ?_⟩
  · rcases clean_filename_spec p with ⟨pre, suf, -, hsuf, he⟩ | ⟨hno, pre, suf, hs, -, he⟩ |
      ⟨hno, -, he⟩
    · rw [he]; exact not_mem_map_tolower suf '/' (by decide) hsuf
    · rw [he]
      apply not_mem_map_tolower suf '/' (by decide)
      intro hm
      exact hno (by rw [hs]; simp [hm])
    · rw [he]; exact not_mem_map_tolower p '/' (by decide) hno
  · intro c hc
    unfold clean_filename at hc
    obtain ⟨d, -, hd⟩ := List.mem_map.1 hc
    rw [← hd]
    exact tolower_not_upper d
  · intro hno
    rcases clean_filename_spec p with ⟨pre, suf, hs, -, -⟩ | ⟨-, pre, suf, -, hsuf, he⟩ |
      ⟨-, hnb, he⟩
    · exact absurd (by rw [hs]; simp) hno
    · rw [he]; exact not_mem_map_tolower suf '\\' (by decide) hsuf
    · rw [he]; exact not_mem_map_tolower p '\\' (by decide) hnb

/-- After a successful `goat3d_set_mtl_attrib_map` the attribute of that name carries
the buffer computed from the path. -/
theorem set_get_mtl_attrib_map {F : Type} [Zero F] [One F] (tmp_ok alloc_ok : Bool)
    (mtl : Material F) (attrib p : CString)
    (h : (goat3d_set_mtl_attrib_map tmp_ok alloc_ok mtl attrib p).1 = 0) :
    goat3d_get_mtl_attrib_map (goat3d_set_mtl_attrib_map tmp_ok alloc_ok mtl attrib p).2 attrib
      = some (some (attrib_map_buffer p)) := by
  unfold goat3d_set_mtl_attrib_map at h ⊢
  cases tmp_ok with
  | false => simp at h
  | true =>
    simp only [Bool.not_true, Bool.false_eq_true, if_false] at h ⊢
    rcases hg : g3dimpl_mtl_getattr alloc_ok mtl attrib with ⟨mtl1, _ | i⟩
    · simp [hg] at h
    · obtain ⟨hfind, ma, hma⟩ := getattr_found alloc_ok mtl attrib mtl1 i hg
      simp only [hg]
      unfold goat3d_get_mtl_attrib_map g3dimpl_mtl_findattr
      unfold g3dimpl_mtl_findattr at hfind
      have key := find_first_modify_at (fun (ma : MaterialAttrib F) => strcmp_eq ma.name attrib)
        (fun ma => { ma with map := some (attrib_map_buffer p) }) (fun _ => rfl) mtl1.attrib i
      simp only [key, hfind, get?_modify_at, hma]
      rfl

/-- C2 as the code has it: after a successful `goat3d_set_mtl_attrib_map` with path
`p`, the map name stored on the attribute is the lower-cased part of `p` after its last
slash; if `p` has no slash, after its last backslash; if it has neither, all of `p`
lower-cased. The stored name has no slash and no upper-case ASCII letter, and it has no
backslash whenever `p` has no slash. -/
theorem attrib_map_stored_name {F : Type} [Zero F] [One F] (tmp_ok alloc_ok : Bool)
    (mtl : Material F) (attrib p : CString)
    (h : (goat3d_set_mtl_attrib_map tmp_ok alloc_ok mtl attrib p).1 = 0) :
    ∃ stored : CString,
      goat3d_get_mtl_attrib_map (goat3d_set_mtl_attrib_map tmp_ok alloc_ok mtl attrib p).2 attrib
        = some (some stored) ∧
      ((∃ pre suf, p = pre ++ '/' :: suf ∧ '/' ∉ suf ∧ stored = suf.map tolower) ∨
       ('/' ∉ p ∧ ∃ pre suf, p = pre ++ '\\' :: suf ∧ '\\' ∉ suf ∧ stored = suf.map tolower) ∨
       ('/' ∉ p ∧ '\\' ∉ p ∧ stored = p.map tolower)) ∧
      '/' ∉ stored ∧
      (∀ c ∈ stored, ¬ ('A' ≤ c ∧ c ≤ 'Z')) ∧
      ('/' ∉ p → '\\' ∉ stored) := by
  refine ⟨clean_filename p, ?_, clean_filename_spec p, clean_filename_chars p⟩
  rw [set_get_mtl_attrib_map tmp_ok alloc_ok mtl attrib p h, attrib_map_buffer_eq]

/-- C2, the scenario: the path "Textures\Wood.PNG" is accepted and the stored name,
which is "wood.png", has the stated form. -/
theorem attrib_map_stored_name_witness :
    (goat3d_set_mtl_attrib_map true true (⟨"mtl_1".toList, []⟩ : Material Rat)
        "diffuse".toList "Textures\\Wood.PNG".toList).1 = 0 ∧
    goat3d_get_mtl_attrib_map
        (goat3d_set_mtl_attrib_map true true (⟨"mtl_1".toList, []⟩ : Material Rat)
          "diffuse".toList "Textures\\Wood.PNG".toList).2 "diffuse".toList
      = some (some "wood.png".toList) ∧
    ∃ stored : CString,
      goat3d_get_mtl_attrib_map
          (goat3d_set_mtl_attrib_map true true (⟨"mtl_1".toList, []⟩ : Material Rat)
            "diffuse".toList "Textures\\Wood.PNG".toList).2 "diffuse".toList
        = some (some stored) ∧
      ((∃ pre suf, "Textures\\Wood.PNG".toList = pre ++ '/' :: suf ∧ '/' ∉ suf ∧
          stored = suf.map tolower) ∨
       ('/' ∉ "Textures\\Wood.PNG".toList ∧
          ∃ pre suf, "Textures\\Wood.PNG".toList = pre ++ '\\' :: suf ∧ '\\' ∉ suf ∧
            stored = suf.map tolower) ∨
       ('/' ∉ "Textures\\Wood.PNG".toList ∧ '\\' ∉ "Textures\\Wood.PNG".toList ∧
          stored = "Textures\\Wood.PNG".toList.map tolower)) ∧
      '/' ∉ stored ∧
      (∀ c ∈ stored, ¬ ('A' ≤ c ∧ c ≤ 'Z')) ∧
      ('/' ∉ "Textures\\Wood.PNG".toList → '\\' ∉ stored) :=
  ⟨by decide, by decide,
   attrib_map_stored_name true true (⟨"mtl_1".toList, []⟩ : Material Rat)
     "diffuse".toList "Textures\\Wood.PNG".toList (by decide)⟩

/-- C2 fails as stated: the path "Tex/Old\Wood.PNG" is accepted, its last directory
separator is the backslash, yet the stored name is "old\wood.png": it is not the part
after the last separator ("wood.png") and it contains a backslash. -/
theorem attrib_map_backslash_after_slash :
    (goat3d_set_mtl_attrib_map true true (⟨"mtl_1".toList, []⟩ : Material Rat)
        "diffuse".toList "Tex/Old\\Wood.PNG".toList).1 = 0 ∧
    goat3d_get_mtl_attrib_map
        (goat3d_set_mtl_attrib_map true true (⟨"mtl_1".toList, []⟩ : Material Rat)
          "diffuse".toList "Tex/Old\\Wood.PNG".toList).2 "diffuse".toList
      = some (some "old\\wood.png".toList) ∧
    "Tex/Old\\Wood.PNG".toList = "Tex/Old".toList ++ '\\' :: "Wood.PNG".toList ∧
    '/' ∉ "Wood.PNG".toList ∧ '\\' ∉ "Wood.PNG".toList ∧
    "old\\wood.png".toList ≠ "Wood.PNG".toList.map tolower ∧
    '\\' ∈ "old\\wood.png".toList := by
  decide

/-! ## Face generation in `goat3d_end` -/

theorem length_dynarr_resize {α : Type} [Inhabited α] (arr tmp : List α) (n : Nat)
    (h : dynarr_resize true arr n = some tmp) : tmp.length = n := by
  simp only [dynarr_resize, if_true, Option.some.injEq] at h
  subst h
  simp only [List.length_append, List.length_take, List.length_replicate]
  omega

theorem length_end_triangles_loop (count i : Nat) (vidx : Int) (faces : List Face) :
    (end_triangles_loop count i vidx faces).length = faces.length := by
  induction count generalizing i vidx faces with
  | zero => rfl
  | succ c ih => simp [end_triangles_loop, ih]

theorem end_triangles_loop_below (count i : Nat) (vidx : Int) (faces : List Face) (k : Nat)
    (hk : k < i) : (end_triangles_loop count i vidx faces)[k]? = faces[k]? := by
  induction count generalizing i vidx faces with
  | zero => rfl
  | succ c ih =>
    simp only [end_triangles_loop]
    rw [ih (i + 1) _ _ (by omega), List.getElem?_set_ne (by omega)]

theorem end_triangles_loop_written (count i : Nat) (vidx : Int) (faces : List Face) (j : Nat)
    (hj : j < count) (hlen : i + count ≤ faces.length) :
    (end_triangles_loop count i vidx faces)[i + j]? =
      some ⟨vidx + 3 * j, vidx + 3 * j + 1, vidx + 3 * j + 2⟩ := by
  induction count generalizing i vidx faces j with
  | zero => omega
  | succ c ih =>
    simp only [end_triangles_loop]
    cases j with
    | zero =>
      simp only [Nat.add_zero]
      rw [end_triangles_loop_below c (i + 1) _ _ i (by omega)]
      rw [List.getElem?_set_self (by omega)]
      simp
    | succ j1 =>
      have := ih (i + 1) (vidx + 3) (faces.set i ⟨vidx, vidx + 1, vidx + 2⟩) j1 (by omega)
        (by rw [List.length_set]; omega)
      rw [show i + (j1 + 1) = i + 1 + j1 by omega, this]
      simp only [Option.some.injEq, Face.mk.injEq]
      push_cast
      refine ⟨by ring, by ring, by ring⟩

theorem length_end_quads_loop (count i : Nat) (vidx : Int) (faces : List Face) :
    (end_quads_loop count i vidx faces).length = faces.length := by
  induction count generalizing i vidx faces with
  | zero => rfl
  | succ c ih => simp [end_quads_loop, ih]

theorem end_quads_loop_below (count i : Nat) (vidx : Int) (faces : List Face) (k : Nat)
    (hk : k < i * 2) : (end_quads_loop count i vidx faces)[k]? = faces[k]? := by
  induction count generalizing i vidx faces with
  | zero => rfl
  | succ c ih =>
    simp only [end_quads_loop]
    rw [ih (i + 1) _ _ (by omega), List.getElem?_set_ne (by omega),
      List.getElem?_set_ne (by omega)]

theorem end_quads_loop_written (count i : Nat) (vidx : Int) (faces : List Face) (j : Nat)
    (hj : j < count) (hlen : (i + count) * 2 ≤ faces.length) :
    (end_quads_loop count i vidx faces)[(i + j) * 2]? =
        some ⟨vidx + 4 * j, vidx + 4 * j + 1, vidx + 4 * j + 2⟩ ∧
    (end_quads_loop count i vidx faces)[(i + j) * 2 + 1]? =
        some ⟨vidx + 4 * j, vidx + 4 * j + 2, vidx + 4 * j + 3⟩ := by
  induction count generalizing i vidx faces j with
  | zero => omega
  | succ c ih =>
    simp only [end_quads_loop]
    cases j with
    | zero =>
      simp only [Nat.add_zero]
      rw [end_quads_loop_below c (i + 1) _ _ (i * 2) (by omega),
        end_quads_loop_below c (i + 1) _ _ (i * 2 + 1) (by omega)]
      constructor
      · rw [List.getElem?_set_ne (by omega), List.getElem?_set_self (by omega)]
        simp
      · rw [List.getElem?_set_self (by rw [List.length_set]; omega)]
        simp
    | succ j1 =>
      have := ih (i + 1) (vidx + 4)
        ((faces.set (i * 2) ⟨vidx, vidx + 1, vidx + 2⟩).set (i * 2 + 1) ⟨vidx, vidx + 2, vidx + 3⟩)
        j1 (by omega) (by rw [List.length_set, List.length_set]; omega)
      rw [show i + (j1 + 1) = i + 1 + j1 by omega, this.1, this.2]
      simp only [Option.some.injEq, Face.mk.injEq]
      push_cast
      refine ⟨⟨by ring, by ring, by ring⟩, by ring, by ring, by ring⟩

/-- C3: when `goat3d_end` runs in `GOAT3D_QUADS` mode on a mesh with n vertices and the
resize of the face array succeeds, the call returns, the vertices are untouched, the
face array has exactly 2 * (n / 4) faces, and for every i < n / 4 face 2i is
(4i, 4i+1, 4i+2) and face 2i+1 is (4i, 4i+2, 4i+3). -/
theorem goat3d_end_quads {F : Type} (w : ImWorld F) (hm : w.im_mesh = true)
    (hp : w.im_prim = .GOAT3D_QUADS) :
    ∃ w1, goat3d_end true w = some w1 ∧
      w1.mesh.vertices = w.mesh.vertices ∧
      w1.mesh.faces.length = 2 * (w.mesh.vertices.length / 4) ∧
      ∀ i, i < w.mesh.vertices.length / 4 →
        w1.mesh.faces.get? (2 * i) = some ⟨4 * i, 4 * i + 1, 4 * i + 2⟩ ∧
        w1.mesh.faces.get? (2 * i + 1) = some ⟨4 * i, 4 * i + 2, 4 * i + 3⟩ := by
  obtain ⟨tmp, htmp⟩ : ∃ tmp, dynarr_resize true w.mesh.faces (w.mesh.vertices.length / 4 * 2)
      = some tmp := ⟨_, rfl⟩
  have hlen := length_dynarr_resize _ _ _ htmp
  refine ⟨{ w with mesh := { w.mesh with
      faces := end_quads_loop (w.mesh.vertices.length / 4) 0 0 tmp } }, ?_, rfl, ?_, ?_⟩
  · simp only [goat3d_end, hp, hm, if_true, end_mesh, htmp]
  · simp only [length_end_quads_loop, hlen]
    omega
  · intro i hi
    have := end_quads_loop_written (w.mesh.vertices.length / 4) 0 0 tmp i hi (by omega)
    simp only [List.get?_eq_getElem?]
    rw [show 2 * i = (0 + i) * 2 by omega, this.1, this.2]
    simp

/-- C3, the scenario: after `goat3d_begin` in quad mode and four vertices, `goat3d_end`
leaves exactly the two faces (0, 1, 2) and (0, 2, 3). -/
theorem goat3d_end_quads_witness :
    quad_world.im_mesh = true ∧ quad_world.im_prim = .GOAT3D_QUADS ∧
    quad_world.mesh.vertices.length = 4 ∧
    (Option.map (fun (w : ImWorld Rat) => w.mesh.faces) (goat3d_end true quad_world)
      = some [⟨0, 1, 2⟩, ⟨0, 2, 3⟩]) ∧
    ∃ w1, goat3d_end true quad_world = some w1 ∧
      w1.mesh.vertices = quad_world.mesh.vertices ∧
      w1.mesh.faces.length = 2 * (quad_world.mesh.vertices.length / 4) ∧
      ∀ i, i < quad_world.mesh.vertices.length / 4 →
        w1.mesh.faces.get? (2 * i) = some ⟨4 * i, 4 * i + 1, 4 * i + 2⟩ ∧
        w1.mesh.faces.get? (2 * i + 1) = some ⟨4 * i, 4 * i + 2, 4 * i + 3⟩ :=
  ⟨rfl, rfl, rfl, by decide, goat3d_end_quads quad_world rfl rfl⟩

/-- C4: when `goat3d_end` runs in `GOAT3D_TRIANGLES` mode on a mesh with n vertices and
the resize of the face array succeeds, the call returns, the vertices are untouched,
the face array has exactly n / 3 faces and for every i < n / 3 face i is
(3i, 3i+1, 3i+2). -/
theorem goat3d_end_triangles {F : Type} (w : ImWorld F) (hm : w.im_mesh = true)
    (hp : w.im_prim = .GOAT3D_TRIANGLES) :
    ∃ w1, goat3d_end true w = some w1 ∧
      w1.mesh.vertices = w.mesh.vertices ∧
      w1.mesh.faces.length = w.mesh.vertices.length / 3 ∧
      ∀ i, i < w.mesh.vertices.length / 3 →
        w1.mesh.faces.get? i = some ⟨3 * i, 3 * i + 1, 3 * i + 2⟩ := by
  obtain ⟨tmp, htmp⟩ : ∃ tmp, dynarr_resize true w.mesh.faces (w.mesh.vertices.length / 3)
      = some tmp := ⟨_, rfl⟩
  have hlen := length_dynarr_resize _ _ _ htmp
  refine ⟨{ w with mesh := { w.mesh with
      faces := end_triangles_loop (w.mesh.vertices.length / 3) 0 0 tmp } }, ?_, rfl, ?_, ?_⟩
  · simp only [goat3d_end, hp, hm, if_true, end_mesh, htmp]
  · simp only [length_end_triangles_loop, hlen]
  · intro i hi
    have := end_triangles_loop_written (w.mesh.vertices.length / 3) 0 0 tmp i hi (by omega)
    simp only [List.get?_eq_getElem?]
    rw [show i = 0 + i by omega, this]
    simp

/-- C4, an instance: after `goat3d_begin` in triangle mode and seven vertices,
`goat3d_end` leaves exactly the two faces (0, 1, 2) and (3, 4, 5); the seventh vertex
is left over. -/
theorem goat3d_end_triangles_witness :
    tri_world.im_mesh = true ∧ tri_world.im_prim = .GOAT3D_TRIANGLES ∧
    tri_world.mesh.vertices.length = 7 ∧
    (Option.map (fun (w : ImWorld Rat) => w.mesh.faces) (goat3d_end true tri_world)
      = some [⟨0, 1, 2⟩, ⟨3, 4, 5⟩]) ∧
    ∃ w1, goat3d_end true tri_world = some w1 ∧
      w1.mesh.vertices = tri_world.mesh.vertices ∧
      w1.mesh.faces.length = tri_world.mesh.vertices.length / 3 ∧
      ∀ i, i < tri_world.mesh.vertices.length / 3 →
        w1.mesh.faces.get? i = some ⟨3 * i, 3 * i + 1, 3 * i + 2⟩ :=
  ⟨rfl, rfl, rfl, by decide, goat3d_end_triangles tri_world rfl rfl⟩

/-! ## Lookup by name -/

/-- A linear search that returns the element at the first matching index returns `x`
exactly when `x` sits at an index that matches and no smaller index does. -/
theorem first_match_some_iff {α : Type} (p : α → Bool) (l : List α) (x : α) :
    (match find_first p l with
      | some i => l.get? i
      | none => none) = some x ↔
    ∃ i, l.get? i = some x ∧ p x = true ∧ ∀ j, j < i → ∀ y, l.get? j = some y → p y = false := by
  constructor
  · intro h
    cases hf : find_first p l with
    | none => simp [hf] at h
    | some i =>
      simp only [hf] at h
      obtain ⟨⟨y, hy, hpy⟩, hall⟩ := (find_first_some_iff p l i).1 hf
      have hxy : y = x := by rw [hy] at h; exact Option.some.inj h
      subst hxy
      exact ⟨i, hy, hpy, hall⟩
  · rintro ⟨i, hx, hpx, hall⟩
    have hf : find_first p l = some i := (find_first_some_iff p l i).2 ⟨⟨x, hx, hpx⟩, hall⟩
    simp only [hf, hx]

theorem first_match_none_iff {α : Type} (p : α → Bool) (l : List α) :
    (match find_first p l with
      | some i => l.get? i
      | none => none) = none ↔ ∀ x ∈ l, p x = false := by
  cases hf : find_first p l with
  | none => simpa using (find_first_none_iff p l).1 hf
  | some i =>
    obtain ⟨⟨y, hy, hpy⟩, -⟩ := (find_first_some_iff p l i).1 hf
    simp only [hy]
    constructor
    · intro h; cases h
    · intro h
      have := h y (List.get?_mem hy)
      rw [hpy] at this
      cases this

/-- C5: `goat3d_get_mtl_by_name` returns the material `m` exactly when `m` is the
element at the smallest index whose name equals the given name, character for
character, and returns null exactly when no material has that name; the same holds for
`goat3d_get_mesh_by_name` and the meshes. -/
theorem get_by_name_first_match {F : Type} (g : Scene F) (name : CString) :
    (∀ m, goat3d_get_mtl_by_name g name = some m ↔
      ∃ i, g.materials.get? i = some m ∧ m.name = name ∧
        ∀ j, j < i → ∀ m1, g.materials.get? j = some m1 → m1.name ≠ name) ∧
    (goat3d_get_mtl_by_name g name = none ↔ ∀ m ∈ g.materials, m.name ≠ name) ∧
    (∀ m, goat3d_get_mesh_by_name g name = some m ↔
      ∃ i, g.meshes.get? i = some m ∧ m.name = name ∧
        ∀ j, j < i → ∀ m1, g.meshes.get? j = some m1 → m1.name ≠ name) ∧
    (goat3d_get_mesh_by_name g name = none ↔ ∀ m ∈ g.meshes, m.name ≠ name) := by
  refine ⟨?_, ?_, ?_, ?_⟩
  · intro m
    unfold goat3d_get_mtl_by_name mtl_by_name_index
    rw [first_match_some_iff]
    simp [strcmp_eq]
  · unfold goat3d_get_mtl_by_name mtl_by_name_index
    rw [first_match_none_iff]
    simp [strcmp_eq]
  · intro m
    unfold goat3d_get_mesh_by_name mesh_by_name_index
    rw [first_match_some_iff]
    simp [strcmp_eq]
  · unfold goat3d_get_mesh_by_name mesh_by_name_index
    rw [first_match_none_iff]
    simp [strcmp_eq]

/-! ## The mesh length invariant -/

theorem ImInv.lenInv {F : Type} {w : ImWorld F} (h : ImInv w) : MeshLenInv w.mesh := by
  obtain ⟨h1, h2, h3, h4, h5, h6⟩ := h
  refine ⟨?_, ?_, ?_, ?_, ?_, ?_⟩
  · split at h1
    · exact Or.inr h1
    · exact Or.inl h1
  · split at h2
    · exact Or.inr h2
    · exact Or.inl h2
  · split at h3
    · exact Or.inr h3
    · exact Or.inl h3
  · split at h4
    · exact Or.inr h4
    · exact Or.inl h4
  · split at h5
    · exact Or.inr h5
    · exact Or.inl h5
  · split at h6
    · exact Or.inr h6
    · exact Or.inl h6

theorem length_memcpy_elems {α : Type} (p : Nat → α) (n : Nat) :
    (memcpy_elems p n).length = n := by
  simp [memcpy_elems]

/-- A call of `goat3d_set_mesh_attribs` for a non-vertex kind keeps the length
invariant, whatever it returns. -/
theorem set_mesh_attribs_nonvertex_lenInv {F : Type} (resize_ok : Bool) (m : Mesh F)
    (attrib : goat3d_mesh_attrib) (data : Nat → ElemTy F attrib) (vnum : Int)
    (hk : attrib ≠ .GOAT3D_MESH_ATTR_VERTEX) (h : MeshLenInv m) :
    MeshLenInv (goat3d_set_mesh_attribs resize_ok m attrib data vnum).2 := by
  obtain ⟨h1, h2, h3, h4, h5, h6⟩ := h
  by_cases hv : vnum = (m.vertices.length : Int)
  · have hn : vnum.toNat = m.vertices.length := by rw [hv]; simp
    cases attrib <;> cases resize_ok <;>
      simp only [goat3d_set_mesh_attribs, SET_VERTEX_DATA, hv, ne_eq, not_true_eq_false,
        if_false, if_true, Bool.false_eq_true] <;>
      first
        | exact absurd rfl hk
        | exact ⟨h1, h2, h3, h4, h5, h6⟩
        | (refine ⟨?_, ?_, ?_, ?_, ?_, ?_⟩ <;>
            first
              | assumption
              | (right; simp [length_memcpy_elems]))
  · cases attrib <;>
      simp only [goat3d_set_mesh_attribs, hv, ne_eq, not_false_eq_true, if_true] <;>
      first
        | exact absurd rfl hk
        | exact ⟨h1, h2, h3, h4, h5, h6⟩

/-- A call of `goat3d_set_mesh_attribs` for the vertex kind keeps the length invariant
when it is given the current vertex count or the other arrays are empty. -/
theorem set_mesh_attribs_vertex_lenInv {F : Type} (resize_ok : Bool) (m : Mesh F)
    (data : Nat → ElemTy F .GOAT3D_MESH_ATTR_VERTEX) (vnum : Int)
    (hv : vnum = (m.vertices.length : Int) ∨ m.others_empty = true) (h : MeshLenInv m) :
    MeshLenInv (goat3d_set_mesh_attribs resize_ok m .GOAT3D_MESH_ATTR_VERTEX data vnum).2 := by
  cases resize_ok with
  | false => simpa [goat3d_set_mesh_attribs, SET_VERTEX_DATA] using h
  | true =>
    simp only [goat3d_set_mesh_attribs, SET_VERTEX_DATA, if_true]
    rcases hv with hv | hv
    · have hn : vnum.toNat = m.vertices.length := by rw [hv]; simp
      simpa [MeshLenInv, length_memcpy_elems, hn] using h
    · simp only [Mesh.others_empty, Bool.and_eq_true, List.isEmpty_iff] at hv
      obtain ⟨⟨⟨⟨⟨e1, e2⟩, e3⟩, e4⟩, e5⟩, e6⟩ := hv
      simp [MeshLenInv, e1, e2, e3, e4, e5, e6]

theorem length_push_if_used {α : Type} (use : Bool) (arr : List α) (cur : α) :
    (push_if_used use true arr cur).length = if use then arr.length + 1 else arr.length := by
  cases use <;> simp [push_if_used, dynarr_push]

theorem push_if_used_false {α : Type} (ok : Bool) (arr : List α) (cur : α) :
    push_if_used false ok arr cur = arr := by
  simp [push_if_used]

/-- The state invariant carried along a disciplined sequence of calls: `ImInv`
between `goat3d_begin` and `goat3d_end`, the length invariant outside. -/
theorem step_keeps_invariant {F : Type} [Zero F] [One F] (ftoi : F → Int) (sess : Bool)
    (w w1 : ImWorld F) (op : MeshOp F)
    (hinv : if sess then ImInv w else MeshLenInv w.mesh)
    (hal : MeshOp.allowed sess w op = true)
    (hstep : MeshOp.step ftoi w op = some w1) :
    if MeshOp.next_session sess op then ImInv w1 else MeshLenInv w1.mesh := by
  cases op with
  | set_mesh_attribs ok attrib data vnum =>
    simp only [MeshOp.allowed, Bool.and_eq_true, Bool.not_eq_true', Bool.or_eq_true,
      decide_eq_true_eq] at hal
    obtain ⟨hs, hk⟩ := hal
    subst hs
    simp only [MeshOp.step, Option.some.injEq] at hstep
    subst hstep
    simp only [MeshOp.next_session, Bool.false_eq_true, if_false] at hinv ⊢
    by_cases hv : attrib = .GOAT3D_MESH_ATTR_VERTEX
    · subst hv
      apply set_mesh_attribs_vertex_lenInv _ _ _ _ _ hinv
      rcases hk with (hk | hk) | hk
      · exact absurd rfl hk
      · exact Or.inl hk
      · exact Or.inr hk
    · exact set_mesh_attribs_nonvertex_lenInv _ _ _ _ _ hv hinv
  | add_mesh_attrib1f ok attrib val => simp [MeshOp.allowed] at hal
  | add_mesh_attrib2f ok attrib x y => simp [MeshOp.allowed] at hal
  | add_mesh_attrib3f ok attrib x y z => simp [MeshOp.allowed] at hal
  | add_mesh_attrib4f ok attrib x y z ww => simp [MeshOp.allowed] at hal
  | begin_ prim =>
    simp only [MeshOp.step, Option.some.injEq] at hstep
    subst hstep
    simp [MeshOp.next_session, ImInv, goat3d_begin]
  | end_ ok =>
    have hlen : MeshLenInv w.mesh := by
      cases sess with
      | true => exact ImInv.lenInv (by simpa using hinv)
      | false => simpa using hinv
    simp only [MeshOp.next_session, Bool.false_eq_true, if_false]
    simp only [MeshOp.step, goat3d_end] at hstep
    have hmesh : MeshLenInv w1.mesh := by
      cases hp : w.im_prim with
      | other n =>
        simp only [hp, Option.some.injEq] at hstep
        subst hstep
        exact hlen
      | GOAT3D_TRIANGLES =>
        simp only [hp] at hstep
        cases hm : w.im_mesh with
        | false => simp [hm] at hstep
        | true =>
          simp only [hm, if_true, Option.some.injEq] at hstep
          subst hstep
          cases ok <;> simpa [end_mesh, dynarr_resize, MeshLenInv] using hlen
      | GOAT3D_QUADS =>
        simp only [hp] at hstep
        cases hm : w.im_mesh with
        | false => simp [hm] at hstep
        | true =>
          simp only [hm, if_true, Option.some.injEq] at hstep
          subst hstep
          cases ok <;> simpa [end_mesh, dynarr_resize, MeshLenInv] using hlen
    exact hmesh
  | vertex3f ok x y z =>
    simp only [MeshOp.allowed, Bool.and_eq_true, decide_eq_true_eq] at hal
    obtain ⟨hs, hok⟩ := hal
    subst hs hok
    simp only [if_true, MeshOp.next_session] at hinv ⊢
    simp only [MeshOp.step, goat3d_vertex3f] at hstep
    cases hm : w.im_mesh with
    | false => simp [hm] at hstep
    | true =>
      simp only [hm, if_true, dynarr_push, PushOk.all, Option.some.injEq] at hstep
      subst hstep
      obtain ⟨h1, h2, h3, h4, h5, h6⟩ := hinv
      refine ⟨?_, ?_, ?_, ?_, ?_, ?_⟩
      · cases hu : w.im_use .GOAT3D_MESH_ATTR_NORMAL <;>
          simp_all [length_push_if_used, push_if_used_false]
      · cases hu : w.im_use .GOAT3D_MESH_ATTR_TANGENT <;>
          simp_all [length_push_if_used, push_if_used_false]
      · cases hu : w.im_use .GOAT3D_MESH_ATTR_TEXCOORD <;>
          simp_all [length_push_if_used, push_if_used_false]
      · cases hu : w.im_use .GOAT3D_MESH_ATTR_SKIN_WEIGHT <;>
          simp_all [length_push_if_used, push_if_used_false]
      · cases hu : w.im_use .GOAT3D_MESH_ATTR_SKIN_MATRIX <;>
          simp_all [length_push_if_used, push_if_used_false]
      · cases hu : w.im_use .GOAT3D_MESH_ATTR_COLOR <;>
          simp_all [length_push_if_used, push_if_used_false]
  | normal3f x y z =>
    simp only [MeshOp.step, Option.some.injEq] at hstep
    subst hstep
    cases sess with
    | false => simpa [MeshOp.next_session, goat3d_normal3f] using hinv
    | true =>
      simp only [MeshOp.allowed, Bool.not_true, Bool.false_or, Bool.or_eq_true,
        List.isEmpty_iff] at hal
      simp only [if_true, MeshOp.next_session] at hinv ⊢
      obtain ⟨h1, h2, h3, h4, h5, h6⟩ := hinv
      simp only [ImInv, goat3d_normal3f, set_use, reduceCtorEq, if_false, if_true]
      refine ⟨?_, h2, h3, h4, h5, h6⟩
      rcases hal with hu | he
      · simpa [hu] using h1
      · cases hu : w.im_use .GOAT3D_MESH_ATTR_NORMAL <;> simp_all
  | tangent3f x y z =>
    simp only [MeshOp.step, Option.some.injEq] at hstep
    subst hstep
    cases sess with
    | false => simpa [MeshOp.next_session, goat3d_tangent3f] using hinv
    | true =>
      simp only [MeshOp.allowed, Bool.not_true, Bool.false_or, Bool.or_eq_true,
        List.isEmpty_iff] at hal
      simp only [if_true, MeshOp.next_session] at hinv ⊢
      obtain ⟨h1, h2, h3, h4, h5, h6⟩ := hinv
      simp only [ImInv, goat3d_tangent3f, set_use, reduceCtorEq, if_false, if_true]
      refine ⟨h1, ?_, h3, h4, h5, h6⟩
      rcases hal with hu | he
      · simpa [hu] using h2
      · cases hu : w.im_use .GOAT3D_MESH_ATTR_TANGENT <;> simp_all
  | texcoord2f x y =>
    simp only [MeshOp.step, Option.some.injEq] at hstep
    subst hstep
    cases sess with
    | false => simpa [MeshOp.next_session, goat3d_texcoord2f] using hinv
    | true =>
      simp only [MeshOp.allowed, Bool.not_true, Bool.false_or, Bool.or_eq_true,
        List.isEmpty_iff] at hal
      simp only [if_true, MeshOp.next_session] at hinv ⊢
      obtain ⟨h1, h2, h3, h4, h5, h6⟩ := hinv
      simp only [ImInv, goat3d_texcoord2f, set_use, reduceCtorEq, if_false, if_true]
      refine ⟨h1, h2, ?_, h4, h5, h6⟩
      rcases hal with hu | he
      · simpa [hu] using h3
      · cases hu : w.im_use .GOAT3D_MESH_ATTR_TEXCOORD <;> simp_all
  | skin_weight4f x y z ww =>
    simp only [MeshOp.step, Option.some.injEq] at hstep
    subst hstep
    cases sess with
    | false => simpa [MeshOp.next_session, goat3d_skin_weight4f] using hinv
    | true =>
      simp only [MeshOp.allowed, Bool.not_true, Bool.false_or, Bool.or_eq_true,
        List.isEmpty_iff] at hal
      simp only [if_true, MeshOp.next_session] at hinv ⊢
      obtain ⟨h1, h2, h3, h4, h5, h6⟩ := hinv
      simp only [ImInv, goat3d_skin_weight4f, set_use, reduceCtorEq, if_false, if_true]
      refine ⟨h1, h2, h3, ?_, h5, h6⟩
      rcases hal with hu | he
      · simpa [hu] using h4
      · cases hu : w.im_use .GOAT3D_MESH_ATTR_SKIN_WEIGHT <;> simp_all
  | skin_matrix4i x y z ww =>
    simp only [MeshOp.step, Option.some.injEq] at hstep
    subst hstep
    cases sess with
    | false => simpa [MeshOp.next_session, goat3d_skin_matrix4i] using hinv
    | true =>
      simp only [MeshOp.allowed, Bool.not_true, Bool.false_or, Bool.or_eq_true,
        List.isEmpty_iff] at hal
      simp only [if_true, MeshOp.next_session] at hinv ⊢
      obtain ⟨h1, h2, h3, h4, h5, h6⟩ := hinv
      simp only [ImInv, goat3d_skin_matrix4i, set_use, reduceCtorEq, if_false, if_true]
      refine ⟨h1, h2, h3, h4, ?_, h6⟩
      rcases hal with hu | he
      · simpa [hu] using h5
      · cases hu : w.im_use .GOAT3D_MESH_ATTR_SKIN_MATRIX <;> simp_all
  | color4f x y z ww =>
    simp only [MeshOp.step, Option.some.injEq] at hstep
    subst hstep
    cases sess with
    | false => simpa [MeshOp.next_session, goat3d_color4f] using hinv
    | true =>
      simp only [MeshOp.allowed, Bool.not_true, Bool.false_or, Bool.or_eq_true,
        List.isEmpty_iff] at hal
      simp only [if_true, MeshOp.next_session] at hinv ⊢
      obtain ⟨h1, h2, h3, h4, h5, h6⟩ := hinv
      simp only [ImInv, goat3d_color4f, set_use, reduceCtorEq, if_false, if_true]
      refine ⟨h1, h2, h3, h4, h5, ?_⟩
      rcases hal with hu | he
      · simpa [hu] using h6
      · cases hu : w.im_use .GOAT3D_MESH_ATTR_COLOR <;> simp_all

theorem run_keeps_invariant {F : Type} [Zero F] [One F] (ftoi : F → Int)
    (ops : List (MeshOp F)) (sess : Bool) (w w1 : ImWorld F)
    (hinv : if sess then ImInv w else MeshLenInv w.mesh)
    (hd : MeshOp.disciplined ftoi sess w ops = true)
    (hr : MeshOp.run ftoi w ops = some w1) : MeshLenInv w1.mesh := by
  induction ops generalizing sess w with
  | nil =>
    simp only [MeshOp.run, Option.some.injEq] at hr
    subst hr
    cases sess with
    | true => exact ImInv.lenInv (by simpa using hinv)
    | false => simpa using hinv
  | cons op ops ih =>
    simp only [MeshOp.disciplined, Bool.and_eq_true] at hd
    obtain ⟨hal, hrest⟩ := hd
    simp only [MeshOp.run] at hr
    cases hs : MeshOp.step ftoi w op with
    | none => simp [hs] at hr
    | some w2 =>
      simp only [hs] at hr hrest
      exact ih (MeshOp.next_session sess op) w2
        (step_keeps_invariant ftoi sess w w2 op hinv hal hs) hrest hr

/-- C6 as the code has it: starting from a freshly created mesh, after every sequence
of calls that keeps to the discipline of `MeshOp.allowed` (array setters outside
begin/end and for the vertex kind only with an unchanged count or empty attribute
arrays, no `goat3d_add_mesh_attrib*`, `goat3d_vertex3f` between begin and end with
every push succeeding, first latch of an attribute while the vertex array is empty),
each of normals, tangents, texcoords, skin_weights, skin_matrices and colors is empty
or exactly as long as the vertex array. -/
theorem disciplined_calls_keep_lengths {F : Type} [Zero F] [One F] (ftoi : F → Int)
    (ops : List (MeshOp F)) (w : ImWorld F)
    (hd : MeshOp.disciplined ftoi false (ImWorld.fresh F) ops = true)
    (hr : MeshOp.run ftoi (ImWorld.fresh F) ops = some w) : MeshLenInv w.mesh := by
  apply run_keeps_invariant ftoi ops false (ImWorld.fresh F) w _ hd hr
  simp [ImWorld.fresh, Mesh.fresh, MeshLenInv]

/-- C6, an instance: `good_trace` keeps to the discipline, runs to the end, leaves four
vertices with four normals and four colours, and the length invariant holds. -/
theorem disciplined_calls_keep_lengths_witness :
    MeshOp.disciplined rat_ftoi false (ImWorld.fresh Rat) good_trace = true ∧
    MeshOp.run rat_ftoi (ImWorld.fresh Rat) good_trace = some good_final ∧
    good_final.mesh.vertices.length = 4 ∧ good_final.mesh.normals.length = 4 ∧
    good_final.mesh.colors.length = 4 ∧ good_final.mesh.tangents.length = 0 ∧
    MeshLenInv good_final.mesh :=
  ⟨by decide, rfl, rfl, rfl, rfl, rfl,
   disciplined_calls_keep_lengths rat_ftoi good_trace good_final (by decide) rfl⟩

/-- C6 fails as stated: one successful `goat3d_add_mesh_attrib3f` of a normal on a fresh
mesh leaves one normal and no vertex; and in immediate mode a normal latched after the
first vertex leaves two vertices and one normal. In both final states the length
invariant is false. -/
theorem mesh_lengths_can_differ :
    MeshOp.run rat_ftoi (ImWorld.fresh Rat) add_normal_trace = some add_normal_final ∧
    add_normal_final.mesh.vertices.length = 0 ∧ add_normal_final.mesh.normals.length = 1 ∧
    ¬ MeshLenInv add_normal_final.mesh ∧
    MeshOp.run rat_ftoi (ImWorld.fresh Rat) late_normal_trace = some late_normal_final ∧
    late_normal_final.mesh.vertices.length = 2 ∧ late_normal_final.mesh.normals.length = 1 ∧
    ¬ MeshLenInv late_normal_final.mesh := by
  refine ⟨rfl, rfl, rfl, ?_, rfl, rfl, rfl, ?_⟩
  · intro h
    rcases h.1 with h1 | h1
    · exact absurd (congrArg List.length h1) (by decide)
    · exact absurd h1 (by decide)
  · intro h
    rcases h.1 with h1 | h1
    · exact absurd (congrArg List.length h1) (by decide)
    · exact absurd h1 (by decide)

/-! ## Clearing and loading -/

/-- C7 at a scene with one element in each collection: `goat3d_clear` resets the name
to "unnamed" and empties the materials, and leaves the mesh, the light, the camera and
the node in place. -/
theorem goat3d_clear_leaves_meshes :
    (goat3d_clear true populated_scene).name = some "unnamed".toList ∧
    goat3d_get_mtl_count (goat3d_clear true populated_scene) = 0 ∧
    goat3d_get_mesh_count (goat3d_clear true populated_scene) = 1 ∧
    (goat3d_clear true populated_scene).lights.length = 1 ∧
    (goat3d_clear true populated_scene).cameras.length = 1 ∧
    goat3d_get_node_count (goat3d_clear true populated_scene) = 1 := by
  decide

/-- C8 at the two failing inputs: when the binary loader fails and the text loader
succeeds `goat3d_load_io` returns -1, and when both fail it returns 0; the sibling
`goat3d_load_anim_io` returns 0 and -1 on the same loaders. -/
theorem goat3d_load_io_inverted :
    (goat3d_load_io loader_fails loader_succeeds cleared_scene ()).1 = -1 ∧
    (goat3d_load_io loader_fails loader_fails cleared_scene ()).1 = 0 ∧
    (goat3d_load_anim_io loader_fails loader_succeeds cleared_scene ()).1 = 0 ∧
    (goat3d_load_anim_io loader_fails loader_fails cleared_scene ()).1 = -1 := by
  decide

/-- `goat3d_load_io` returns -1 exactly when the binary loader returns non-zero and
the text loader then returns 0, and the scene and stream it leaves are then those the
text loader returned. -/
theorem goat3d_load_io_fails_iff {F S : Type}
    (g3dimpl_scnload_bin g3dimpl_scnload_text : Loader F S) (g : Scene F) (s : S) :
    ((goat3d_load_io g3dimpl_scnload_bin g3dimpl_scnload_text g s).1 = -1 ↔
      (g3dimpl_scnload_bin g s).1 ≠ 0 ∧
      (g3dimpl_scnload_text (g3dimpl_scnload_bin g s).2.1 (g3dimpl_scnload_bin g s).2.2).1 = 0) ∧
    ((goat3d_load_io g3dimpl_scnload_bin g3dimpl_scnload_text g s).1 = -1 →
      (goat3d_load_io g3dimpl_scnload_bin g3dimpl_scnload_text g s).2 =
        (g3dimpl_scnload_text (g3dimpl_scnload_bin g s).2.1 (g3dimpl_scnload_bin g s).2.2).2) := by
  unfold goat3d_load_io
  rcases hb : g3dimpl_scnload_bin g s with ⟨r1, g1, s1⟩
  rcases ht : g3dimpl_scnload_text g1 s1 with ⟨r2, g2, s2⟩
  by_cases h1 : r1 = 0
  · simp [h1]
  · by_cases h2 : r2 = 0 <;> simp [h1, h2, ht]

/-- C9 at a failing input: the scene holds objects before the call, the binary loader
fails (returns -1) and leaves the scene cleared, the text loader then succeeds
(returns 0) and loads one material, one mesh and one node. `goat3d_load_io` reports
failure (returns -1) and the scene holds one material, one mesh and one node, where the
sibling `goat3d_load_anim_io` reports success on the same loaders. -/
theorem goat3d_load_io_failure_populated :
    (loader_fails populated_scene ()).1 = -1 ∧
    goat3d_get_mtl_count (loader_fails populated_scene ()).2.1 = 0 ∧
    goat3d_get_mesh_count (loader_fails populated_scene ()).2.1 = 0 ∧
    goat3d_get_node_count (loader_fails populated_scene ()).2.1 = 0 ∧
    (loader_succeeds (loader_fails populated_scene ()).2.1 ()).1 = 0 ∧
    (goat3d_load_io loader_fails loader_succeeds populated_scene ()).1 = -1 ∧
    goat3d_get_mtl_count (goat3d_load_io loader_fails loader_succeeds populated_scene ()).2.1 = 1 ∧
    goat3d_get_mesh_count (goat3d_load_io loader_fails loader_succeeds populated_scene ()).2.1 = 1 ∧
    goat3d_get_node_count (goat3d_load_io loader_fails loader_succeeds populated_scene ()).2.1 = 1 ∧
    (goat3d_load_anim_io loader_fails loader_succeeds populated_scene ()).1 = 0 := by
  decide

/-! ## Mesh attribute setters -/

/-- C10 at the failing inputs: for the colour kind, `goat3d_add_mesh_attrib4f` with a
successful push and `goat3d_set_mesh_attribs` with the vertex count and a successful
resize both return -1 although the colour array has received the data. -/
theorem color_setters_store_and_fail :
    (goat3d_add_mesh_attrib4f rat_ftoi true one_vertex_mesh .GOAT3D_MESH_ATTR_COLOR
        1 1 1 1).1 = -1 ∧
    (goat3d_add_mesh_attrib4f rat_ftoi true one_vertex_mesh .GOAT3D_MESH_ATTR_COLOR
        1 1 1 1).2.colors = [⟨1, 1, 1, 1⟩] ∧
    one_vertex_mesh.colors = [] ∧
    (goat3d_set_mesh_attribs true one_vertex_mesh .GOAT3D_MESH_ATTR_COLOR
        (fun _ => (⟨1, 1, 1, 1⟩ : Vec4 Rat)) 1).1 = -1 ∧
    (goat3d_set_mesh_attribs true one_vertex_mesh .GOAT3D_MESH_ATTR_COLOR
        (fun _ => (⟨1, 1, 1, 1⟩ : Vec4 Rat)) 1).2.colors = [⟨1, 1, 1, 1⟩] :=
  ⟨rfl, rfl, rfl, rfl, rfl⟩

/-- What `goat3d_set_mesh_attribs` does for the vertex kind: no count check, the
outcome depends on the resize alone. -/
theorem set_mesh_attribs_vertex_eq {F : Type} (resize_ok : Bool) (mesh : Mesh F)
    (data : Nat → ElemTy F .GOAT3D_MESH_ATTR_VERTEX) (vnum : Int) :
    goat3d_set_mesh_attribs resize_ok mesh .GOAT3D_MESH_ATTR_VERTEX data vnum =
      if resize_ok then (0, { mesh with vertices := memcpy_elems data vnum.toNat })
      else (-1, mesh) := by
  cases resize_ok <;> simp [goat3d_set_mesh_attribs, SET_VERTEX_DATA]

theorem get?_memcpy_elems {α : Type} (p : Nat → α) (n i : Nat) (h : i < n) :
    (memcpy_elems p n).get? i = some (p i) := by
  simp [memcpy_elems, List.getElem?_range h]

/-- C11 as the code has it: for every non-vertex kind and every count different from
the current vertex count `goat3d_set_mesh_attribs` returns -1 and leaves the mesh as it
was; for the vertex kind no count check is made: whenever the resize succeeds, any
count `vnum >= 0` is accepted (the call returns 0, the other arrays are untouched) and
the vertex array becomes exactly the `vnum` given elements; when the resize fails the
call returns -1 and leaves the mesh as it was. -/
theorem set_mesh_attribs_count_check {F : Type} (resize_ok : Bool) (mesh : Mesh F)
    (attrib : goat3d_mesh_attrib) (data : Nat → ElemTy F attrib)
    (vdata : Nat → ElemTy F .GOAT3D_MESH_ATTR_VERTEX) (vnum : Int) :
    (attrib ≠ .GOAT3D_MESH_ATTR_VERTEX → vnum ≠ (mesh.vertices.length : Int) →
      goat3d_set_mesh_attribs resize_ok mesh attrib data vnum = (-1, mesh)) ∧
    (0 ≤ vnum →
      (goat3d_set_mesh_attribs true mesh .GOAT3D_MESH_ATTR_VERTEX vdata vnum).1 = 0 ∧
      ((goat3d_set_mesh_attribs true mesh .GOAT3D_MESH_ATTR_VERTEX vdata vnum).2.vertices.length
          : Int) = vnum ∧
      (∀ i : Nat, (i : Int) < vnum →
        (goat3d_set_mesh_attribs true mesh .GOAT3D_MESH_ATTR_VERTEX vdata vnum).2.vertices.get? i
          = some (vdata i)) ∧
      (goat3d_set_mesh_attribs true mesh .GOAT3D_MESH_ATTR_VERTEX vdata vnum).2 =
        { mesh with
          vertices :=
            (goat3d_set_mesh_attribs true mesh .GOAT3D_MESH_ATTR_VERTEX vdata vnum).2.vertices }) ∧
    goat3d_set_mesh_attribs false mesh .GOAT3D_MESH_ATTR_VERTEX vdata vnum = (-1, mesh) := by
  refine ⟨?_, ?_, ?_⟩
  · intro hk hv
    cases attrib <;> simp only [goat3d_set_mesh_attribs, hv, ne_eq, not_false_eq_true, if_true]
    exact absurd rfl hk
  · intro h0
    rw [set_mesh_attribs_vertex_eq]
    simp only [if_true]
    refine ⟨trivial, ?_, ?_, trivial⟩
    · rw [length_memcpy_elems]
      exact Int.toNat_of_nonneg h0
    · intro i hi
      exact get?_memcpy_elems vdata vnum.toNat i (by omega)
  · rw [set_mesh_attribs_vertex_eq]
    simp

/-- C11, an instance: on a mesh with one vertex, two normals are rejected, and two
vertices are accepted when the resize succeeds. -/
theorem set_mesh_attribs_count_check_witness :
    goat3d_mesh_attrib.GOAT3D_MESH_ATTR_NORMAL ≠ .GOAT3D_MESH_ATTR_VERTEX ∧
    (2 : Int) ≠ (one_vertex_mesh.vertices.length : Int) ∧ (0 : Int) ≤ 2 ∧
    goat3d_set_mesh_attribs true one_vertex_mesh .GOAT3D_MESH_ATTR_NORMAL
      (fun _ => (⟨0, 0, 1⟩ : Vec3 Rat)) 2 = (-1, one_vertex_mesh) ∧
    (goat3d_set_mesh_attribs true one_vertex_mesh .GOAT3D_MESH_ATTR_VERTEX
      (fun _ => (⟨1, 1, 1⟩ : Vec3 Rat)) 2).1 = 0 ∧
    ((goat3d_set_mesh_attribs true one_vertex_mesh .GOAT3D_MESH_ATTR_VERTEX
      (fun _ => (⟨1, 1, 1⟩ : Vec3 Rat)) 2).2.vertices.length : Int) = 2 :=
  ⟨by decide, by decide, by decide,
   (set_mesh_attribs_count_check true one_vertex_mesh .GOAT3D_MESH_ATTR_NORMAL
      (fun _ => (⟨0, 0, 1⟩ : Vec3 Rat)) (fun _ => (⟨1, 1, 1⟩ : Vec3 Rat)) 2).1
      (by decide) (by decide),
   ((set_mesh_attribs_count_check true one_vertex_mesh .GOAT3D_MESH_ATTR_NORMAL
      (fun _ => (⟨0, 0, 1⟩ : Vec3 Rat)) (fun _ => (⟨1, 1, 1⟩ : Vec3 Rat)) 2).2.1
      (by decide)).1,
   ((set_mesh_attribs_count_check true one_vertex_mesh .GOAT3D_MESH_ATTR_NORMAL
      (fun _ => (⟨0, 0, 1⟩ : Vec3 Rat)) (fun _ => (⟨1, 1, 1⟩ : Vec3 Rat)) 2).2.1
      (by decide)).2.1⟩

/-- C11 fails as stated: for the vertex kind a count of 2 is not accepted when the
resize of the vertex array fails; the call returns -1 and the vertex array keeps its
one element. -/
theorem set_mesh_attribs_vertex_resize_fails :
    (goat3d_set_mesh_attribs false one_vertex_mesh .GOAT3D_MESH_ATTR_VERTEX
      (fun _ => (⟨1, 1, 1⟩ : Vec3 Rat)) 2).1 = -1 ∧
    (goat3d_set_mesh_attribs false one_vertex_mesh .GOAT3D_MESH_ATTR_VERTEX
      (fun _ => (⟨1, 1, 1⟩ : Vec3 Rat)) 2).2.vertices.length = 1 := by
  decide

/-! ## Scene bounds -/

theorem get_bounds_loop_eq_foldl {F : Type} (nb : Node → AABox F)
    (un : AABox F → AABox F → AABox F) (nodes : List Node) (bbox : AABox F) :
    get_bounds_loop nb un nodes bbox =
      ((nodes.filter (fun n => n.parent.isNone)).map nb).foldl un bbox := by
  induction nodes generalizing bbox with
  | nil => rfl
  | cons n rest ih =>
    cases hp : n.parent with
    | none => simp [get_bounds_loop, hp, ih]
    | some i => simp [get_bounds_loop, hp, ih]

/-- C12: when the cached box is not valid, `goat3d_get_bounds` returns 0 and the box
obtained by starting from the initial box and uniting into it, in collection order, the
node bounds of exactly the nodes without a parent; that box is cached. When every node
has a parent the result is the initial box. -/
theorem goat3d_get_bounds_unites_roots {F : Type} (g3dimpl_aabox_init : AABox F)
    (g3dimpl_node_bounds : Node → AABox F)
    (g3dimpl_aabox_union : AABox F → AABox F → AABox F) (g : Scene F)
    (hv : g.bbox_valid = false) :
    goat3d_get_bounds g3dimpl_aabox_init g3dimpl_node_bounds g3dimpl_aabox_union g =
      (0,
       (((g.nodes.filter (fun n => n.parent.isNone)).map g3dimpl_node_bounds).foldl
          g3dimpl_aabox_union g3dimpl_aabox_init).min,
       (((g.nodes.filter (fun n => n.parent.isNone)).map g3dimpl_node_bounds).foldl
          g3dimpl_aabox_union g3dimpl_aabox_init).max,
       { g with
         bbox := ((g.nodes.filter (fun n => n.parent.isNone)).map g3dimpl_node_bounds).foldl
           g3dimpl_aabox_union g3dimpl_aabox_init
         bbox_valid := true }) ∧
    ((∀ n ∈ g.nodes, n.parent.isSome = true) →
      ((g.nodes.filter (fun n => n.parent.isNone)).map g3dimpl_node_bounds).foldl
          g3dimpl_aabox_union g3dimpl_aabox_init = g3dimpl_aabox_init) := by
  constructor
  · simp only [goat3d_get_bounds, hv, Bool.not_false, if_true, get_bounds_loop_eq_foldl]
  · intro hall
    have : g.nodes.filter (fun n => n.parent.isNone) = [] := by
      rw [List.filter_eq_nil_iff]
      intro n hn
      have := hall n hn
      cases hp : n.parent <;> simp_all
    simp [this]

/-- C12, an instance: a scene whose only node has no parent and whose cache is not
valid gets the union of the initial box with that node's bounds. -/
theorem goat3d_get_bounds_unites_roots_witness :
    populated_scene.bbox_valid = false ∧
    goat3d_get_bounds inverted_box (fun _ => unit_box) box_union populated_scene =
      (0,
       (((populated_scene.nodes.filter (fun n => n.parent.isNone)).map
          (fun _ => unit_box)).foldl box_union inverted_box).min,
       (((populated_scene.nodes.filter (fun n => n.parent.isNone)).map
          (fun _ => unit_box)).foldl box_union inverted_box).max,
       { populated_scene with
         bbox := ((populated_scene.nodes.filter (fun n => n.parent.isNone)).map
           (fun _ => unit_box)).foldl box_union inverted_box
         bbox_valid := true }) :=
  ⟨rfl, (goat3d_get_bounds_unites_roots inverted_box (fun _ => unit_box) box_union
    populated_scene rfl).1⟩

/-- C13 at a failing input: on a scene without nodes the first `goat3d_get_bounds`
caches the initial box; after `goat3d_add_node` of a parentless node the cache is still
marked valid (and stays so after `goat3d_clear`), the second `goat3d_get_bounds`
returns the initial box again, and the union over the root nodes of the changed scene
is a different box, the unit cube. -/
theorem goat3d_get_bounds_stale_after_add_node :
    scene_after_bounds.bbox_valid = true ∧
    scene_after_add_node.bbox_valid = true ∧
    scene_after_add_node.nodes = [⟨"root".toList, none⟩] ∧
    (goat3d_clear true scene_after_add_node).bbox_valid = true ∧
    (goat3d_get_bounds inverted_box (fun _ => unit_box) box_union scene_after_add_node).2.1
      = inverted_box.min ∧
    (goat3d_get_bounds inverted_box (fun _ => unit_box) box_union scene_after_add_node).2.2.1
      = inverted_box.max ∧
    get_bounds_loop (fun _ => unit_box) box_union scene_after_add_node.nodes inverted_box
      = unit_box ∧
    unit_box ≠ inverted_box := by
  refine ⟨rfl, rfl, rfl, rfl, rfl, rfl, ?_, ?_⟩
  · simp [scene_after_add_node, scene_after_bounds, goat3d_add_node, goat3d_get_bounds,
      cleared_scene, populated_scene, get_bounds_loop, box_union, unit_box, inverted_box]
  · simp [unit_box, inverted_box]

/-! ## Attribute lookups that miss -/

/-- C14 at a failing input: on a material without attributes the lookup of "diffuse"
finds nothing; `goat3d_get_mtl_attrib` then returns null, and
`goat3d_get_mtl_attrib_map` dereferences the null pointer (the outer `none` of the
model) instead of returning. -/
theorem goat3d_get_mtl_attrib_map_derefs_null :
    g3dimpl_mtl_findattr (⟨"mtl_1".toList, []⟩ : Material Rat) "diffuse".toList = none ∧
    goat3d_get_mtl_attrib (⟨"mtl_1".toList, []⟩ : Material Rat) "diffuse".toList = none ∧
    goat3d_get_mtl_attrib_map (⟨"mtl_1".toList, []⟩ : Material Rat) "diffuse".toList = none ∧
    goat3d_get_mtl_attrib_map
      (⟨"mtl_1".toList, [⟨"diffuse".toList, ⟨1, 0, 0, 1⟩, none⟩]⟩ : Material Rat)
      "diffuse".toList = some none := by
  refine ⟨rfl, rfl, rfl, ?_⟩
  decide

/-! ## The search path of `goat3d_load` -/

theorem take_of_strrchr (s : CString) (c : Char) (i : Nat) (h : strrchr s c = some i) :
    ∃ suf, s = s.take i ++ c :: suf ∧ c ∉ suf := by
  obtain ⟨pre, suf, hs, hsuf, hlen, -⟩ := strrchr_some_split s c i h
  refine ⟨suf, ?_, hsuf⟩
  have : s.take i = pre := by
    rw [hs]
    exact List.take_left' hlen
  rw [this]
  exact hs

/-- The search path in terms of the file name alone. -/
theorem load_search_path_spec (f : CString) :
    (∃ pre suf, f = pre ++ '/' :: suf ∧ '/' ∉ suf ∧ load_search_path f = some pre) ∨
    ('/' ∉ f ∧ ∃ pre suf, f = pre ++ '\\' :: suf ∧ '\\' ∉ suf ∧
        load_search_path f = some pre) ∨
    ('/' ∉ f ∧ '\\' ∉ f ∧ load_search_path f = none) := by
  unfold load_search_path
  cases h1 : strrchr f '/' with
  | some i =>
    obtain ⟨suf, hs, hsuf⟩ := take_of_strrchr f '/' i h1
    left
    exact ⟨f.take i, suf, hs, hsuf, rfl⟩
  | none =>
    have hno : '/' ∉ f := (strrchr_none_iff f '/').1 h1
    right
    cases h2 : strrchr f '\\' with
    | some i =>
      obtain ⟨suf, hs, hsuf⟩ := take_of_strrchr f '\\' i h2
      left
      exact ⟨hno, f.take i, suf, hs, hsuf, rfl⟩
    | none =>
      right
      exact ⟨hno, (strrchr_none_iff f '\\').1 h2, rfl⟩

/-- The scene that `goat3d_load` returns carries the search path computed from the file
name when the loaders do not write it. -/
theorem goat3d_load_stores_search_path {F S : Type} (fopen : CString → Option S)
    (bin text : Loader F S) (g : Scene F) (f : CString) (fp : S)
    (hopen : fopen f = some fp)
    (hbin : ∀ g s, (bin g s).2.1.search_path = g.search_path)
    (htext : ∀ g s, (text g s).2.1.search_path = g.search_path) :
    (goat3d_load fopen bin text g f).2.search_path = load_search_path f := by
  unfold goat3d_load goat3d_load_file goat3d_load_io
  simp only [hopen]
  have hb := hbin { g with search_path := load_search_path f } fp
  rcases hbr : bin { g with search_path := load_search_path f } fp with ⟨r1, g1, s1⟩
  rw [hbr] at hb
  simp only at hb
  have ht := htext g1 s1
  rcases htr : text g1 s1 with ⟨r2, g2, s2⟩
  rw [htr] at ht
  simp only at ht
  by_cases h1 : r1 = 0
  · simp [h1, hb]
  · by_cases h2 : r2 = 0 <;> simp [h1, h2, htr, ht, hb]

/-- C17 as the code has it: for a file name `f` that can be opened (and loaders that do
not write the search path), the search path stored by `goat3d_load` is the part of `f`
before its last slash; without a slash, the part before its last backslash; without
either, none is stored. Whenever a search path `sp` is stored, `f` is `sp`, one
separator and a rest that has no slash, and that has no backslash when `f` has no
slash. -/
theorem goat3d_load_search_path {F S : Type} (fopen : CString → Option S)
    (bin text : Loader F S) (g : Scene F) (f : CString) (fp : S)
    (hopen : fopen f = some fp)
    (hbin : ∀ g s, (bin g s).2.1.search_path = g.search_path)
    (htext : ∀ g s, (text g s).2.1.search_path = g.search_path) :
    ((∃ pre suf, f = pre ++ '/' :: suf ∧ '/' ∉ suf ∧
        (goat3d_load fopen bin text g f).2.search_path = some pre) ∨
     ('/' ∉ f ∧ ∃ pre suf, f = pre ++ '\\' :: suf ∧ '\\' ∉ suf ∧
        (goat3d_load fopen bin text g f).2.search_path = some pre) ∨
     ('/' ∉ f ∧ '\\' ∉ f ∧ (goat3d_load fopen bin text g f).2.search_path = none)) ∧
    (∀ sp, (goat3d_load fopen bin text g f).2.search_path = some sp →
      ∃ sep base, f = sp ++ sep :: base ∧ (sep = '/' ∨ sep = '\\') ∧ '/' ∉ base ∧
        ('/' ∉ f → '\\' ∉ base)) := by
  rw [goat3d_load_stores_search_path fopen bin text g f fp hopen hbin htext]
  refine ⟨load_search_path_spec f, ?_⟩
  intro sp hsp
  rcases load_search_path_spec f with ⟨pre, suf, hf, hsuf, he⟩ | ⟨hno, pre, suf, hf, hsuf, he⟩ |
    ⟨-, -, he⟩
  · rw [he] at hsp
    cases hsp
    refine ⟨'/', suf, hf, Or.inl rfl, hsuf, ?_⟩
    intro hno
    exact absurd (by rw [hf]; simp) hno
  · rw [he] at hsp
    cases hsp
    refine ⟨'\\', suf, hf, Or.inr rfl, ?_, fun _ => hsuf⟩
    intro hm
    exact hno (by rw [hf]; simp [hm])
  · rw [he] at hsp
    cases hsp

/-- C17, an instance: for "models/scene.goat" the stored search path is "models". -/
theorem goat3d_load_search_path_witness :
    fopen_any "models/scene.goat".toList = some () ∧
    (goat3d_load fopen_any loader_fails_at_once loader_fails_at_once cleared_scene
        "models/scene.goat".toList).2.search_path = some "models".toList ∧
    (∀ sp, (goat3d_load fopen_any loader_fails_at_once loader_fails_at_once cleared_scene
        "models/scene.goat".toList).2.search_path = some sp →
      ∃ sep base, "models/scene.goat".toList = sp ++ sep :: base ∧
        (sep = '/' ∨ sep = '\\') ∧ '/' ∉ base ∧
        ('/' ∉ "models/scene.goat".toList → '\\' ∉ base)) :=
  ⟨rfl, by decide,
   (goat3d_load_search_path fopen_any loader_fails_at_once loader_fails_at_once cleared_scene
      "models/scene.goat".toList () rfl (fun _ _ => rfl) (fun _ _ => rfl)).2⟩

/-- C17 fails as stated: for "models/old\scene.goat" the stored search path is
"models", and what follows it and one separator, "old\scene.goat", contains a
backslash: the file name is not the search path, one separator and a rest without
slash and backslash. -/
theorem goat3d_load_basename_keeps_backslash :
    (goat3d_load fopen_any loader_fails_at_once loader_fails_at_once cleared_scene
        "models/old\\scene.goat".toList).2.search_path = some "models".toList ∧
    ¬ ∃ sep base, "models/old\\scene.goat".toList = "models".toList ++ sep :: base ∧
        '/' ∉ base ∧ '\\' ∉ base := by
  refine ⟨by decide, ?_⟩
  rintro ⟨sep, base, hf, -, hb⟩
  have hbase : base = "old\\scene.goat".toList := by
    have := congrArg (List.drop 7) hf
    simpa using this.symm
  rw [hbase] at hb
  exact hb (by decide)

/-! ## Cleaning a file name twice -/

theorem tolower_of_not_upper (c : Char) (h : ¬ ('A' ≤ c ∧ c ≤ 'Z')) : tolower c = c := by
  simp [tolower, h]

theorem map_tolower_of_no_upper (s : CString) (h : ∀ c ∈ s, ¬ ('A' ≤ c ∧ c ≤ 'Z')) :
    s.map tolower = s := by
  induction s with
  | nil => rfl
  | cons a t ih =>
    simp only [List.map_cons]
    rw [tolower_of_not_upper a (h a (by simp)), ih (fun c hc => h c (by simp [hc]))]

/-- A name without slash, backslash and upper-case letter is left as it is. -/
theorem clean_filename_fixed (s : CString) (h1 : '/' ∉ s) (h2 : '\\' ∉ s)
    (h3 : ∀ c ∈ s, ¬ ('A' ≤ c ∧ c ≤ 'Z')) : clean_filename s = s := by
  rcases clean_filename_spec s with ⟨pre, suf, hs, -, -⟩ | ⟨-, pre, suf, hs, -, -⟩ | ⟨-, -, he⟩
  · exact absurd (by rw [hs]; simp) h1
  · exact absurd (by rw [hs]; simp) h2
  · rw [he, map_tolower_of_no_upper s h3]

/-- C18 as the code has it: for every string `s` with no backslash after its last slash
(in particular every `s` without a slash), cleaning the cleaned name changes nothing:
`clean_filename (clean_filename s) = clean_filename s`. -/
theorem clean_filename_idempotent (s : CString)
    (h : ∀ pre suf, s = pre ++ '/' :: suf → '/' ∉ suf → '\\' ∉ suf) :
    clean_filename (clean_filename s) = clean_filename s := by
  obtain ⟨hslash, hupper, hback⟩ := clean_filename_chars s
  apply clean_filename_fixed _ hslash _ hupper
  rcases clean_filename_spec s with ⟨pre, suf, hs, hsuf, he⟩ | ⟨hno, -, -, -, -, -⟩ | ⟨hno, -, -⟩
  · rw [he]
    exact not_mem_map_tolower suf '\\' (by decide) (h pre suf hs hsuf)
  · exact hback hno
  · exact hback hno

/-- C18, an instance: "Textures\Wood.PNG" has no slash, and cleaning "wood.png" again
gives "wood.png". -/
theorem clean_filename_idempotent_witness :
    (∀ pre suf, "Textures\\Wood.PNG".toList = pre ++ '/' :: suf → '/' ∉ suf → '\\' ∉ suf) ∧
    clean_filename "Textures\\Wood.PNG".toList = "wood.png".toList ∧
    clean_filename (clean_filename "Textures\\Wood.PNG".toList)
      = clean_filename "Textures\\Wood.PNG".toList :=
  have hno : ∀ pre suf, "Textures\\Wood.PNG".toList = pre ++ '/' :: suf → '/' ∉ suf →
      '\\' ∉ suf := by
    intro pre suf hs
    have hmem : '/' ∈ "Textures\\Wood.PNG".toList := by rw [hs]; simp
    exact absurd hmem (by decide)
  ⟨hno, by decide, clean_filename_idempotent "Textures\\Wood.PNG".toList hno⟩

/-- C18 fails as stated: "Tex/Old\Wood.PNG" is cleaned to "old\wood.png", and cleaning
that again gives "wood.png". -/
theorem clean_filename_not_idempotent :
    clean_filename "Tex/Old\\Wood.PNG".toList = "old\\wood.png".toList ∧
    clean_filename (clean_filename "Tex/Old\\Wood.PNG".toList) = "wood.png".toList ∧
    clean_filename (clean_filename "Tex/Old\\Wood.PNG".toList)
      ≠ clean_filename "Tex/Old\\Wood.PNG".toList := by
  decide

/-! ## Option flags -/

theorem getopt_eq_testBit {F : Type} (g : Scene F) (o : Nat) :
    goat3d_getopt g o = if g.flags.testBit o then 1 else 0 := by
  unfold goat3d_getopt
  rw [Nat.and_one_is_mod, Nat.shiftRight_eq_div_pow, ← Nat.toNat_testBit]
  cases g.flags.testBit o <;> simp

theorem testBit_of_word (x o : Nat) (hx : x < 2 ^ 32) (h : x.testBit o = true) : o < 32 := by
  by_contra hge
  have hle : 2 ^ 32 ≤ 2 ^ o := Nat.pow_le_pow_right (by decide) (by omega)
  have := Nat.testBit_lt_two_pow (lt_of_lt_of_le hx hle)
  rw [this] at h
  cases h

theorem testBit_clear_mask (opt o : Nat) :
    ((2 ^ 32 - 1) ^^^ (1 <<< opt)).testBit o = (decide (o < 32) ^^ decide (opt = o)) := by
  rw [Nat.testBit_xor, Nat.testBit_two_pow_sub_one, Nat.one_shiftLeft, Nat.testBit_two_pow]

/-- C20: for every 32-bit flags word, every option number `opt < 31` and every integer
`val`, after `goat3d_setopt(g, opt, val)` the call `goat3d_getopt(g, opt)` returns 1 if
`val` is non-zero and 0 if it is zero, `goat3d_getopt(g, o)` is unchanged for every
other option `o`, the flags are still a 32-bit word, and `goat3d_getopt` always returns
0 or 1. -/
theorem setopt_getopt_bits {F : Type} (g : Scene F) (opt : Nat) (val : Int)
    (hword : g.flags < 2 ^ 32) (hopt : opt < 31) :
    goat3d_getopt (goat3d_setopt g opt val) opt = (if val ≠ 0 then 1 else 0) ∧
    (∀ o, o ≠ opt → goat3d_getopt (goat3d_setopt g opt val) o = goat3d_getopt g o) ∧
    (goat3d_setopt g opt val).flags < 2 ^ 32 ∧
    (∀ (g1 : Scene F) o, goat3d_getopt g1 o = 0 ∨ goat3d_getopt g1 o = 1) := by
  refine ⟨?_, ?_, ?_, ?_⟩
  · rw [getopt_eq_testBit]
    by_cases hv : val = 0
    · simp only [goat3d_setopt, hv, ne_eq, not_true_eq_false, if_false, Nat.testBit_and,
        testBit_clear_mask]
      have h32 : opt < 32 := by omega
      simp [h32]
    · simp [goat3d_setopt, hv, Nat.testBit_or, Nat.one_shiftLeft, Nat.testBit_two_pow_self]
  · intro o ho
    rw [getopt_eq_testBit, getopt_eq_testBit]
    have hne : ¬ opt = o := fun h => ho h.symm
    by_cases hv : val = 0
    · simp only [goat3d_setopt, hv, ne_eq, not_true_eq_false, if_false, Nat.testBit_and,
        testBit_clear_mask, hne, decide_False, Bool.xor_false]
      cases hb : g.flags.testBit o with
      | false => simp
      | true => simp [testBit_of_word g.flags o hword hb]
    · simp [goat3d_setopt, hv, Nat.testBit_or, Nat.one_shiftLeft, Nat.testBit_two_pow, hne]
  · by_cases hv : val = 0
    · simp only [goat3d_setopt, hv, ne_eq, not_true_eq_false, if_false]
      exact lt_of_le_of_lt Nat.and_le_left hword
    · simp only [goat3d_setopt, hv, ne_eq, not_false_eq_true, if_true, Nat.one_shiftLeft]
      apply Nat.or_lt_two_pow hword
      exact Nat.pow_lt_pow_right (by decide) (by omega)
  · intro g1 o
    rw [getopt_eq_testBit]
    cases g1.flags.testBit o <;> simp

/-- C20, an instance: on the flags word 5 (options 0 and 2 set), setting option 1 makes
it read 1, clearing it again makes it read 0, and option 2 reads 1 throughout. -/
theorem setopt_getopt_bits_witness :
    ({ cleared_scene with flags := 5 } : Scene Rat).flags < 2 ^ 32 ∧ 1 < 31 ∧
    goat3d_getopt (goat3d_setopt { cleared_scene with flags := 5 } 1 7) 1 = 1 ∧
    goat3d_getopt (goat3d_setopt { cleared_scene with flags := 5 } 1 0) 1 = 0 ∧
    goat3d_getopt (goat3d_setopt { cleared_scene with flags := 5 } 1 7) 2 = 1 ∧
    goat3d_getopt (goat3d_setopt { cleared_scene with flags := 5 } 1 7) 1
      = (if (7 : Int) ≠ 0 then 1 else 0) :=
  ⟨by decide, by decide, by decide, by decide, by decide,
   (setopt_getopt_bits { cleared_scene with flags := 5 } 1 7 (by decide) (by decide)).1⟩

/-! ## Validity of the generated faces -/

theorem mem_end_triangles_loop (tmp : List Face) (q : Nat) (htmp : tmp.length = q)
    (f : Face) (hf : f ∈ end_triangles_loop q 0 0 tmp) :
    ∃ i : Nat, i < q ∧ f = ⟨3 * i, 3 * i + 1, 3 * i + 2⟩ := by
  obtain ⟨k, hk, hget⟩ := List.getElem_of_mem hf
  rw [length_end_triangles_loop, htmp] at hk
  have hw := end_triangles_loop_written q 0 0 tmp k hk (by omega)
  rw [Nat.zero_add, List.getElem?_eq_getElem (by rw [length_end_triangles_loop]; omega),
    hget] at hw
  refine ⟨k, hk, ?_⟩
  have := Option.some.inj hw
  simpa using this

theorem mem_end_quads_loop (tmp : List Face) (q : Nat) (htmp : tmp.length = q * 2)
    (f : Face) (hf : f ∈ end_quads_loop q 0 0 tmp) :
    ∃ i : Nat, i < q ∧
      (f = ⟨4 * i, 4 * i + 1, 4 * i + 2⟩ ∨ f = ⟨4 * i, 4 * i + 2, 4 * i + 3⟩) := by
  obtain ⟨k, hk, hget⟩ := List.getElem_of_mem hf
  have hk2 : k < q * 2 := by rw [length_end_quads_loop, htmp] at hk; exact hk
  have hi : k / 2 < q := by omega
  have hw := end_quads_loop_written q 0 0 tmp (k / 2) hi (by omega)
  rw [Nat.zero_add] at hw
  have hsome : (end_quads_loop q 0 0 tmp)[k]? = some f := by
    rw [List.getElem?_eq_getElem hk, hget]
  refine ⟨k / 2, hi, ?_⟩
  rcases Nat.mod_two_eq_zero_or_one k with h0 | h1
  · left
    have hk' : k = k / 2 * 2 := by omega
    rw [hk'] at hsome
    rw [hsome] at hw
    have := Option.some.inj hw.1
    simpa using this
  · right
    have hk' : k = k / 2 * 2 + 1 := by omega
    rw [hk'] at hsome
    rw [hsome] at hw
    have := Option.some.inj hw.2
    simpa using this

/-- C19: when `goat3d_end` runs in triangle or quad mode on a mesh with n vertices and
the resize succeeds, it returns and every face of the result has its three indices
`>= 0` and `< n`, pairwise distinct, and below 3 * (n / 3) in triangle mode and
4 * (n / 4) in quad mode, so that no face refers to a vertex left over after the last
complete triangle or quad. When the resize fails no face is produced: the state is
returned as it was. -/
theorem goat3d_end_faces_valid {F : Type} (w : ImWorld F) (hm : w.im_mesh = true)
    (hp : w.im_prim = .GOAT3D_TRIANGLES ∨ w.im_prim = .GOAT3D_QUADS) :
    (∃ w1, goat3d_end true w = some w1 ∧
      ∀ f ∈ w1.mesh.faces,
        (0 ≤ f.v0 ∧ f.v0 < (w.mesh.vertices.length : Int)) ∧
        (0 ≤ f.v1 ∧ f.v1 < (w.mesh.vertices.length : Int)) ∧
        (0 ≤ f.v2 ∧ f.v2 < (w.mesh.vertices.length : Int)) ∧
        f.v0 ≠ f.v1 ∧ f.v1 ≠ f.v2 ∧ f.v0 ≠ f.v2 ∧
        (w.im_prim = .GOAT3D_TRIANGLES →
          f.v0 < ((3 * (w.mesh.vertices.length / 3) : Nat) : Int) ∧
          f.v1 < ((3 * (w.mesh.vertices.length / 3) : Nat) : Int) ∧
          f.v2 < ((3 * (w.mesh.vertices.length / 3) : Nat) : Int)) ∧
        (w.im_prim = .GOAT3D_QUADS →
          f.v0 < ((4 * (w.mesh.vertices.length / 4) : Nat) : Int) ∧
          f.v1 < ((4 * (w.mesh.vertices.length / 4) : Nat) : Int) ∧
          f.v2 < ((4 * (w.mesh.vertices.length / 4) : Nat) : Int))) ∧
    goat3d_end false w = some w := by
  constructor
  · rcases hp with hp | hp
    · obtain ⟨tmp, htmp⟩ : ∃ tmp, dynarr_resize true w.mesh.faces (w.mesh.vertices.length / 3)
          = some tmp := ⟨_, rfl⟩
      have hlen := length_dynarr_resize _ _ _ htmp
      refine ⟨{ w with mesh := { w.mesh with
          faces := end_triangles_loop (w.mesh.vertices.length / 3) 0 0 tmp } }, ?_, ?_⟩
      · simp only [goat3d_end, hp, hm, if_true, end_mesh, htmp]
      · intro f hf
        obtain ⟨i, hi, rfl⟩ := mem_end_triangles_loop tmp _ hlen f hf
        simp only [hp, reduceCtorEq, false_implies, true_implies, and_true]
        push_cast
        omega
    · obtain ⟨tmp, htmp⟩ : ∃ tmp, dynarr_resize true w.mesh.faces
          (w.mesh.vertices.length / 4 * 2) = some tmp := ⟨_, rfl⟩
      have hlen := length_dynarr_resize _ _ _ htmp
      refine ⟨{ w with mesh := { w.mesh with
          faces := end_quads_loop (w.mesh.vertices.length / 4) 0 0 tmp } }, ?_, ?_⟩
      · simp only [goat3d_end, hp, hm, if_true, end_mesh, htmp]
      · intro f hf
        obtain ⟨i, hi, rfl | rfl⟩ := mem_end_quads_loop tmp _ hlen f hf
        · simp only [hp, reduceCtorEq, false_implies, true_implies, and_true, true_and]
          push_cast
          omega
        · simp only [hp, reduceCtorEq, false_implies, true_implies, and_true, true_and]
          push_cast
          omega
  · cases w with
    | mk mesh im_prim im_mesh im_norm im_tang im_texcoord im_skinw im_color im_skinmat im_use =>
      simp only at hm hp
      subst hm
      rcases hp with hp | hp <;> subst hp <;>
        simp [goat3d_end, end_mesh, dynarr_resize]

/-- C19, an instance: with seven vertices in triangle mode the faces are valid and all
their indices are below 6, so vertex 6 is referenced by no face. -/
theorem goat3d_end_faces_valid_witness :
    tri_world.im_mesh = true ∧ tri_world.im_prim = .GOAT3D_TRIANGLES ∧
    tri_world.mesh.vertices.length = 7 ∧
    (∃ w1, goat3d_end true tri_world = some w1 ∧
      ∀ f ∈ w1.mesh.faces,
        (0 ≤ f.v0 ∧ f.v0 < (tri_world.mesh.vertices.length : Int)) ∧
        (0 ≤ f.v1 ∧ f.v1 < (tri_world.mesh.vertices.length : Int)) ∧
        (0 ≤ f.v2 ∧ f.v2 < (tri_world.mesh.vertices.length : Int)) ∧
        f.v0 ≠ f.v1 ∧ f.v1 ≠ f.v2 ∧ f.v0 ≠ f.v2 ∧
        (tri_world.im_prim = .GOAT3D_TRIANGLES →
          f.v0 < ((3 * (tri_world.mesh.vertices.length / 3) : Nat) : Int) ∧
          f.v1 < ((3 * (tri_world.mesh.vertices.length / 3) : Nat) : Int) ∧
          f.v2 < ((3 * (tri_world.mesh.vertices.length / 3) : Nat) : Int)) ∧
        (tri_world.im_prim = .GOAT3D_QUADS →
          f.v0 < ((4 * (tri_world.mesh.vertices.length / 4) : Nat) : Int) ∧
          f.v1 < ((4 * (tri_world.mesh.vertices.length / 4) : Nat) : Int) ∧
          f.v2 < ((4 * (tri_world.mesh.vertices.length / 4) : Nat) : Int))) :=
  ⟨rfl, rfl, rfl, (goat3d_end_faces_valid tri_world rfl (Or.inl rfl)).1⟩

/-! ## The XML writer -/

/-- A character that `clean_filename` neither cuts at nor changes. -/
theorem digit_char_plain (k : Nat) (hk : k < 10) :
    Char.ofNat (48 + k) ≠ '/' ∧ Char.ofNat (48 + k) ≠ '\\' ∧
      ¬ ('A' ≤ Char.ofNat (48 + k) ∧ Char.ofNat (48 + k) ≤ 'Z') := by
  interval_cases k <;> decide

theorem dec_digits_plain (fuel n : Nat) (acc : CString)
    (hacc : ∀ c ∈ acc, c ≠ '/' ∧ c ≠ '\\' ∧ ¬ ('A' ≤ c ∧ c ≤ 'Z')) :
    ∀ c ∈ dec_digits fuel n acc, c ≠ '/' ∧ c ≠ '\\' ∧ ¬ ('A' ≤ c ∧ c ≤ 'Z') := by
  induction fuel generalizing n acc with
  | zero => simpa [dec_digits] using hacc
  | succ k ih =>
    have hacc1 : ∀ c ∈ Char.ofNat (48 + n % 10) :: acc,
        c ≠ '/' ∧ c ≠ '\\' ∧ ¬ ('A' ≤ c ∧ c ≤ 'Z') := by
      intro c hc
      rcases List.mem_cons.1 hc with rfl | hc
      · exact digit_char_plain (n % 10) (Nat.mod_lt n (by decide))
      · exact hacc c hc
    unfold dec_digits
    split
    · exact hacc1
    · exact ih (n / 10) _ hacc1

theorem fmt_04d_plain (n : Nat) :
    ∀ c ∈ fmt_04d n, c ≠ '/' ∧ c ≠ '\\' ∧ ¬ ('A' ≤ c ∧ c ≤ 'Z') := by
  intro c hc
  unfold fmt_04d at hc
  rcases List.mem_append.1 hc with h | h
  · have : c = '0' := (List.mem_replicate.1 h).2
    subst this
    decide
  · exact dec_digits_plain (n + 1) n [] (by simp) c h

/-- The file name built from a scene name without slash, backslash and upper-case
letter is left as it is by `clean_filename`. -/
theorem clean_mesh_filename_eq {F : Type} (scn : Scene F) (idx : Nat) (name : CString)
    (hname : scn.name = some name) (h1 : '/' ∉ name) (h2 : '\\' ∉ name)
    (h3 : ∀ c ∈ name, ¬ ('A' ≤ c ∧ c ≤ 'Z')) :
    clean_filename (mesh_filename scn idx) = mesh_filename scn idx := by
  have hall : ∀ c ∈ mesh_filename scn idx, c ≠ '/' ∧ c ≠ '\\' ∧ ¬ ('A' ≤ c ∧ c ≤ 'Z') := by
    intro c hc
    simp only [mesh_filename, hname, List.mem_append] at hc
    rcases hc with ((hc | hc) | hc) | hc
    · refine ⟨?_, ?_, h3 c hc⟩
      · rintro rfl; exact h1 hc
      · rintro rfl; exact h2 hc
    · revert c; decide
    · exact fmt_04d_plain idx c hc
    · revert c; decide
  apply clean_filename_fixed
  · intro hm; exact (hall _ hm).1 rfl
  · intro hm; exact (hall _ hm).2.1 rfl
  · intro c hc; exact (hall c hc).2.2

/-- C15 as the code has it: when the mesh file writer succeeds, `write_mesh` saves the
mesh under "<scene-name>-mesh<idx in decimal, zero-padded to 4 digits>.ctm" and records
in the `<file string="..."/>` tag that name passed through `clean_filename`. The two
strings are equal whenever the scene name has no slash, no backslash and no upper-case
ASCII letter. -/
theorem write_mesh_file_name {F : Type} (env : XmlEnv F) (scn : Scene F) (o : XmlOut)
    (mesh : Mesh F) (idx level : Nat) (name : CString) (hname : scn.name = some name)
    (hsave : env.mesh_save mesh (mesh_filename scn idx) = true) :
    (write_mesh env scn o mesh idx level).1 = true ∧
    (write_mesh env scn o mesh idx level).2.saved =
      o.saved ++ [name ++ "-mesh".toList ++ fmt_04d idx ++ ".ctm".toList] ∧
    (∃ head,
      (write_mesh env scn o mesh idx level).2.out =
        head ++ (List.replicate (level + 1) "  ".toList).flatten ++
          xml_tag "file".toList "string".toList
            (clean_filename (name ++ "-mesh".toList ++ fmt_04d idx ++ ".ctm".toList)) ++
          (List.replicate level "  ".toList).flatten ++ "</mesh>\n\n".toList) ∧
    ('/' ∉ name → '\\' ∉ name → (∀ c ∈ name, ¬ ('A' ≤ c ∧ c ≤ 'Z')) →
      clean_filename (name ++ "-mesh".toList ++ fmt_04d idx ++ ".ctm".toList) =
        name ++ "-mesh".toList ++ fmt_04d idx ++ ".ctm".toList) := by
  have hfn : mesh_filename scn idx = name ++ "-mesh".toList ++ fmt_04d idx ++ ".ctm".toList := by
    simp only [mesh_filename, hname]
  rw [← hfn]
  have hw : write_mesh env scn o mesh idx level =
      (true, xmlout (xmlout
        (match mesh.material with
          | some mtl =>
            xmlout (xmlout (xmlout { o with saved := o.saved ++ [mesh_filename scn idx] } level
              "<mesh>\n".toList) (level + 1) (xml_tag "name".toList "string".toList mesh.name))
              (level + 1) (xml_tag "material".toList "string".toList (env.material_name mtl))
          | none =>
            xmlout (xmlout { o with saved := o.saved ++ [mesh_filename scn idx] } level
              "<mesh>\n".toList) (level + 1) (xml_tag "name".toList "string".toList mesh.name))
        (level + 1) (xml_tag "file".toList "string".toList
          (clean_filename (mesh_filename scn idx)))) level "</mesh>\n\n".toList) := by
    unfold write_mesh
    simp only [hsave, Bool.not_true, Bool.false_eq_true, if_false]
  rw [hw]
  refine ⟨rfl, ?_, ?_, ?_⟩
  · cases mesh.material <;> rfl
  · refine ⟨(match mesh.material with
          | some mtl =>
            xmlout (xmlout (xmlout { o with saved := o.saved ++ [mesh_filename scn idx] } level
              "<mesh>\n".toList) (level + 1) (xml_tag "name".toList "string".toList mesh.name))
              (level + 1) (xml_tag "material".toList "string".toList (env.material_name mtl))
          | none =>
            xmlout (xmlout { o with saved := o.saved ++ [mesh_filename scn idx] } level
              "<mesh>\n".toList) (level + 1)
              (xml_tag "name".toList "string".toList mesh.name)).out, ?_⟩
    simp only [xmlout, List.append_assoc]
  · intro h1 h2 h3
    exact clean_mesh_filename_eq scn idx name hname h1 h2 h3

/-- C15, an instance: in the scene named "unnamed" mesh 7 is saved as
"unnamed-mesh0007.ctm" and the same name is recorded. -/
theorem write_mesh_file_name_witness :
    cleared_scene.name = some "unnamed".toList ∧
    xml_env_ok.mesh_save one_vertex_mesh (mesh_filename cleared_scene 7) = true ∧
    (write_mesh xml_env_ok cleared_scene ⟨[], []⟩ one_vertex_mesh 7 1).2.saved
      = ["unnamed-mesh0007.ctm".toList] ∧
    (write_mesh xml_env_ok cleared_scene ⟨[], []⟩ one_vertex_mesh 7 1).2.out
      = "  <mesh>\n    <name string=\"\"/>\n    <file string=\"unnamed-mesh0007.ctm\"/>\n  </mesh>\n\n".toList ∧
    (write_mesh xml_env_ok cleared_scene ⟨[], []⟩ one_vertex_mesh 7 1).1 = true ∧
    clean_filename ("unnamed".toList ++ "-mesh".toList ++ fmt_04d 7 ++ ".ctm".toList) =
      "unnamed".toList ++ "-mesh".toList ++ fmt_04d 7 ++ ".ctm".toList :=
  ⟨rfl, rfl, by decide, by decide,
   (write_mesh_file_name xml_env_ok cleared_scene ⟨[], []⟩ one_vertex_mesh 7 1
      "unnamed".toList rfl rfl).1,
   (write_mesh_file_name xml_env_ok cleared_scene ⟨[], []⟩ one_vertex_mesh 7 1
      "unnamed".toList rfl rfl).2.2.2 (by decide) (by decide) (by decide)⟩

/-- C15 fails as stated: in the scene named "Room" mesh 0 is saved as
"Room-mesh0000.ctm" and the recorded name is "room-mesh0000.ctm". -/
theorem write_mesh_records_cleaned_name :
    (write_mesh xml_env_ok room_scene ⟨[], []⟩ one_vertex_mesh 0 1).1 = true ∧
    (write_mesh xml_env_ok room_scene ⟨[], []⟩ one_vertex_mesh 0 1).2.saved
      = ["Room-mesh0000.ctm".toList] ∧
    (write_mesh xml_env_ok room_scene ⟨[], []⟩ one_vertex_mesh 0 1).2.out
      = "  <mesh>\n    <name string=\"\"/>\n    <file string=\"room-mesh0000.ctm\"/>\n  </mesh>\n\n".toList ∧
    "room-mesh0000.ctm".toList ≠ "Room-mesh0000.ctm".toList := by
  decide

set_option maxRecDepth 100000 in
/-- C16 at a failing input: in a scene with one mesh and one node, with a mesh file
writer that fails, `write_mesh` returns false, and `Scene::savexml` still returns true
and goes on to write the node block and the closing tag. -/
theorem savexml_ignores_write_mesh :
    (room_scene.meshes.map
      (fun mesh => (write_mesh xml_env_fail room_scene ⟨[], []⟩ mesh 0 1).1)) = [false] ∧
    (savexml xml_env_fail room_scene ⟨[], []⟩).1 = true ∧
    (savexml xml_env_fail room_scene ⟨[], []⟩).2.saved = [] ∧
    (savexml xml_env_fail room_scene ⟨[], []⟩).2.out =
      ("<scene>\n  <env>\n    <ambient float3=\"0 0 0\"/>\n  </env>\n\n" ++
       "  <node>\n    <name string=\"root\"/>\n    <pos float3=\"0 0 0\"/>\n" ++
       "    <rot float4=\"0 0 0 0\"/>\n    <scale float3=\"0 0 0\"/>\n" ++
       "    <pivot float3=\"0 0 0\"/>\n    <matrix0 float4=\"0 0 0 0\"/>\n" ++
       "    <matrix1 float4=\"0 0 0 0\"/>\n    <matrix2 float4=\"0 0 0 0\"/>\n" ++
       "  </node>\n</scene>\n").toList := by
  refine ⟨by decide, by decide, by decide, ?_⟩
  rfl

/-! ## Saving -/

theorem getopt_setopt_one {F : Type} (g : Scene F) (opt : Nat) :
    goat3d_getopt (goat3d_setopt g opt 1) opt = 1 := by
  rw [getopt_eq_testBit]
  simp [goat3d_setopt, Nat.testBit_or, Nat.one_shiftLeft, Nat.testBit_two_pow_self]

/-- A successful `goat3d_init` leaves the option `GOAT3D_OPT_SAVEXML` set. -/
theorem getopt_savexml_after_init {F : Type} [Zero F] (xml : Nat) (amb : F) (ok : InitOk)
    (h : (goat3d_init xml amb ok).1 = 0) :
    goat3d_getopt (goat3d_init xml amb ok).2 xml = 1 := by
  rcases ok with ⟨n, a, b, c, d, e, dn⟩
  cases n
  · simp [goat3d_init, goat3d_set_name] at h
  cases a
  · simp [goat3d_init, goat3d_set_name] at h
  cases b
  · simp [goat3d_init, goat3d_set_name] at h
  cases c
  · simp [goat3d_init, goat3d_set_name] at h
  cases d
  · simp [goat3d_init, goat3d_set_name] at h
  cases e
  · simp [goat3d_init, goat3d_set_name] at h
  simpa [goat3d_init, goat3d_set_name] using getopt_setopt_one _ xml

/-- C21: `goat3d_save_io` and `goat3d_save_anim_io` return -1 and leave the stream as
it was, whatever the writers are, whenever the option SAVEXML reads non-zero, whatever
SAVETEXT is; when SAVEXML reads zero they return what the text writer returns if
SAVETEXT reads non-zero and what the binary writer returns if it reads zero. After a
successful `goat3d_init`, which sets SAVEXML, both return -1. -/
theorem save_format_dispatch {F S : Type} [Zero F] (xml text : Nat)
    (scnsave_text scnsave_bin : Saver F S) (anmsave_text anmsave_bin : AnimSaver S)
    (g : Scene F) (s : S) (amb : F) (ok : InitOk) :
    (goat3d_getopt g xml ≠ 0 →
      goat3d_save_io xml text scnsave_text scnsave_bin g s = (-1, s) ∧
      goat3d_save_anim_io xml text anmsave_text anmsave_bin g s = (-1, s)) ∧
    (goat3d_getopt g xml = 0 → goat3d_getopt g text ≠ 0 →
      goat3d_save_io xml text scnsave_text scnsave_bin g s = scnsave_text g s ∧
      goat3d_save_anim_io xml text anmsave_text anmsave_bin g s = anmsave_text s) ∧
    (goat3d_getopt g xml = 0 → goat3d_getopt g text = 0 →
      goat3d_save_io xml text scnsave_text scnsave_bin g s = scnsave_bin g s ∧
      goat3d_save_anim_io xml text anmsave_text anmsave_bin g s = anmsave_bin s) ∧
    ((goat3d_init xml amb ok).1 = 0 →
      goat3d_save_io xml text scnsave_text scnsave_bin (goat3d_init xml amb ok).2 s = (-1, s) ∧
      goat3d_save_anim_io xml text anmsave_text anmsave_bin (goat3d_init xml amb ok).2 s
        = (-1, s)) := by
  refine ⟨?_, ?_, ?_, ?_⟩
  · intro hx
    simp [goat3d_save_io, goat3d_save_anim_io, hx]
  · intro hx ht
    simp [goat3d_save_io, goat3d_save_anim_io, hx, ht]
  · intro hx ht
    simp [goat3d_save_io, goat3d_save_anim_io, hx, ht]
  · intro hi
    have hx := getopt_savexml_after_init xml amb ok hi
    simp [goat3d_save_io, goat3d_save_anim_io, hx]

/-- C21, an instance: with SAVEXML as option 0 and SAVETEXT as option 1, the freshly
initialised scene has SAVEXML set and saving it returns -1 with nothing written; once
SAVEXML is cleared the binary writer runs, and with SAVETEXT set the text writer. -/
theorem save_format_dispatch_witness :
    (goat3d_init 0 (1 / 20 : Rat) InitOk.all).1 = 0 ∧
    goat3d_getopt fresh_scene 0 ≠ 0 ∧
    goat3d_save_io 0 1 saver_text saver_bin fresh_scene [] = (-1, []) ∧
    goat3d_getopt (goat3d_setopt fresh_scene 0 0) 0 = 0 ∧
    goat3d_getopt (goat3d_setopt fresh_scene 0 0) 1 = 0 ∧
    goat3d_save_io 0 1 saver_text saver_bin (goat3d_setopt fresh_scene 0 0) []
      = saver_bin (goat3d_setopt fresh_scene 0 0) [] ∧
    goat3d_getopt (goat3d_setopt (goat3d_setopt fresh_scene 0 0) 1 1) 1 ≠ 0 ∧
    goat3d_save_io 0 1 saver_text saver_bin (goat3d_setopt (goat3d_setopt fresh_scene 0 0) 1 1) []
      = saver_text (goat3d_setopt (goat3d_setopt fresh_scene 0 0) 1 1) [] :=
  ⟨by decide, by decide,
   ((save_format_dispatch 0 1 saver_text saver_bin (fun s => (0, s)) (fun s => (0, s))
      fresh_scene [] (1 / 20 : Rat) InitOk.all).1 (by decide)).1,
   by decide, by decide,
   ((save_format_dispatch 0 1 saver_text saver_bin (fun s => (0, s)) (fun s => (0, s))
      (goat3d_setopt fresh_scene 0 0) [] (1 / 20 : Rat) InitOk.all).2.2.1
      (by decide) (by decide)).1,
   by decide,
   ((save_format_dispatch 0 1 saver_text saver_bin (fun s => (0, s)) (fun s => (0, s))
      (goat3d_setopt (goat3d_setopt fresh_scene 0 0) 1 1) [] (1 / 20 : Rat) InitOk.all).2.1
      (by decide) (by decide)).1⟩

end Goat3d
